import Mathlib

/-!
# Verification of the autosubnuclei resumable-scan core

Shallow embedding, in Lean 4, of the checkpoint / resume / batching core of
the `autosubnuclei` pipeline:

* `autosubnuclei/core/scanner.py` — `SecurityScanner` (`_adaptive_batch_size`,
  `_run_subfinder`, `_run_httpx` and its batch helpers, `_run_nuclei`, `scan`);
* `autosubnuclei/core/checkpoint_manager.py` — `CheckpointManager`
  (checkpoint document, `update_phase_status`, `update_checkpoint`,
  `update_statistics`, `repair_checkpoint`, `verify_checkpoint_integrity`,
  `cleanup_old_checkpoints`).

Modelling conventions:

* Python JSON dicts with a fixed key set become structures with `Option`
  fields (`none` = key absent); dicts with open key sets become association
  lists `List (String × _)` (Python preserves insertion order, `update`
  overwrites in place and appends new keys).
* Python ints are `Int`/`Nat`; floats (memory sizes, ratios) are `ℚ` with
  explicit truncation (`pyInt`, Python's `int(...)`).  Float rounding error
  is below every threshold any claim depends on.
* Text files are modelled as their list of lines (`List String`); Python's
  `str.strip` is `pyStrip` over the character list.
* Calls into the OS (subprocess spawns) are events in a trace `List ToolInv`;
  the stdout produced by the external tools, and the process memory that
  `_adaptive_batch_size` reads, are inputs supplied by a `ScanEnv`.
* Disk writes of the checkpoint file carry no extra information (the written
  JSON is exactly the in-memory document), so `_write_checkpoint` is modelled
  as a `Bool` flag "a write happened" where a claim needs it.
* Tool installation / availability checks (`_setup_tools`,
  `ensure_tool_exists`) are modelled as succeeding; their failure paths
  abort before anything a claim talks about.
-/

namespace AutoSubNuclei

/-! ## `_adaptive_batch_size` (scanner.py, lines 182–210) -/

/-- Python's `int(x)` on a float/rational: truncation toward zero. -/
def pyInt (q : ℚ) : ℤ := if 0 ≤ q then ⌊q⌋ else ⌈q⌉

/-- `SecurityScanner._adaptive_batch_size` (scanner.py 182–210).

`max_workers` is `os.cpu_count() or 4`, `mem` is the current process RSS in
MB (`_get_memory_usage`), `total_items` the argument.  The memory threshold
`self.memory_threshold_mb` is the constant `1024` set in `__init__`; the
Python guard `current_memory_mb > self.memory_threshold_mb * 0.7` is the
rational `1024 * (7/10)` (the float constant differs by < 1e-9, and no claim
depends on the exact cut-off value).  `total_items // 2 or 1` evaluates to
`1` exactly when `total_items // 2 == 0`. -/
def adaptiveBatchSize (max_workers : ℕ) (mem : ℚ) (total_items : ℕ) : ℤ :=
  let mr : ℚ := min 1 (1024 / max 1 mem)
  let base : ℕ :=
    if 10000 < total_items then max 10 (min 500 (total_items / (max_workers * 2)))
    else max 10 (total_items / max_workers)
  let adjusted : ℤ := pyInt ((base : ℚ) * mr)
  let adjusted2 : ℤ := if 1024 * (7/10 : ℚ) < mem then pyInt ((adjusted : ℚ) / 2) else adjusted
  max 5 (min adjusted2 (if total_items / 2 = 0 then 1 else ((total_items / 2 : ℕ) : ℤ)))

lemma memRatio_pos (mem : ℚ) : 0 < min 1 (1024 / max 1 mem) := by
  refine lt_min one_pos (div_pos (by norm_num) ?_)
  exact lt_of_lt_of_le one_pos (le_max_left 1 mem)

lemma memRatio_antitone {u v : ℚ} (h : u ≤ v) :
    min 1 (1024 / max 1 v) ≤ min 1 (1024 / max 1 u) := by
  refine min_le_min le_rfl ?_
  refine div_le_div_of_nonneg_left (by norm_num) ?_ (max_le_max le_rfl h)
  exact lt_of_lt_of_le one_pos (le_max_left 1 u)

lemma pyInt_nonneg {q : ℚ} (h : 0 ≤ q) : 0 ≤ pyInt q := by
  simp only [pyInt, if_pos h]
  exact Int.floor_nonneg.mpr h

lemma pyInt_of_nonneg {q : ℚ} (h : 0 ≤ q) : pyInt q = ⌊q⌋ := by
  simp [pyInt, h]

lemma pyInt_mono_of_nonneg {p q : ℚ} (hp : 0 ≤ p) (h : p ≤ q) : pyInt p ≤ pyInt q := by
  rw [pyInt_of_nonneg hp, pyInt_of_nonneg (hp.trans h)]
  exact Int.floor_le_floor h

lemma pyInt_half_le_self {a : ℤ} (ha : 0 ≤ a) : pyInt ((a : ℚ) / 2) ≤ a := by
  rw [pyInt_of_nonneg (by positivity)]
  have h0 : (0:ℚ) ≤ (a : ℚ) := by exact_mod_cast ha
  calc ⌊(a : ℚ) / 2⌋ ≤ ⌊(a : ℚ)⌋ := Int.floor_le_floor (by linarith)
  _ = a := Int.floor_intCast a

lemma pyInt_half_mono {a b : ℤ} (ha : 0 ≤ a) (h : a ≤ b) :
    pyInt ((a : ℚ) / 2) ≤ pyInt ((b : ℚ) / 2) := by
  refine pyInt_mono_of_nonneg (by positivity) ?_
  have : (a : ℚ) ≤ (b : ℚ) := by exact_mod_cast h
  linarith

/-- C4: with `total_items` (and the worker count) fixed, the result of
`_adaptive_batch_size` is non-increasing in the current memory usage. -/
theorem adaptiveBatchSize_antitone_in_memory (max_workers total_items : ℕ)
    (u1 u2 : ℚ) (h : u1 ≤ u2) :
    adaptiveBatchSize max_workers u2 total_items ≤
      adaptiveBatchSize max_workers u1 total_items := by
  unfold adaptiveBatchSize
  set base : ℕ :=
    if 10000 < total_items then max 10 (min 500 (total_items / (max_workers * 2)))
    else max 10 (total_items / max_workers) with hbase
  have hmr1 : (0:ℚ) ≤ (base : ℚ) * min 1 (1024 / max 1 u1) :=
    mul_nonneg (by positivity) (memRatio_pos u1).le
  have hmr2 : (0:ℚ) ≤ (base : ℚ) * min 1 (1024 / max 1 u2) :=
    mul_nonneg (by positivity) (memRatio_pos u2).le
  have hadj : pyInt ((base : ℚ) * min 1 (1024 / max 1 u2)) ≤
      pyInt ((base : ℚ) * min 1 (1024 / max 1 u1)) :=
    pyInt_mono_of_nonneg hmr2 (mul_le_mul_of_nonneg_left (memRatio_antitone h) (by positivity))
  have hadj2nn : 0 ≤ pyInt ((base : ℚ) * min 1 (1024 / max 1 u2)) := pyInt_nonneg hmr2
  refine max_le_max le_rfl (min_le_min ?_ le_rfl)
  by_cases h1 : 1024 * (7/10 : ℚ) < u1
  · have h2 : 1024 * (7/10 : ℚ) < u2 := lt_of_lt_of_le h1 h
    rw [if_pos h1, if_pos h2]
    exact pyInt_half_mono hadj2nn hadj
  · rw [if_neg h1]
    by_cases h2 : 1024 * (7/10 : ℚ) < u2
    · rw [if_pos h2]
      exact le_trans (pyInt_half_le_self hadj2nn) hadj
    · rw [if_neg h2]
      exact hadj

/-- C3 (amended): `_adaptive_batch_size` always returns a value in
`[5, max 5 (max 1 (total_items // 2))]`; in particular, whenever
`total_items ≥ 10` the result lies in the claimed interval
`[5, max 1 (total_items // 2)]`. -/
theorem adaptiveBatchSize_bounds (max_workers total_items : ℕ) (mem : ℚ) :
    5 ≤ adaptiveBatchSize max_workers mem total_items ∧
      adaptiveBatchSize max_workers mem total_items ≤
        max 5 (max 1 ((total_items / 2 : ℕ) : ℤ)) := by
  unfold adaptiveBatchSize
  constructor
  · exact le_max_left _ _
  · refine max_le (le_max_left _ _) ?_
    refine le_trans (min_le_right _ _) (le_max_of_le_right ?_)
    split
    · exact le_max_left _ _
    · exact le_max_right _ _

/-- C3 counterexample: at `total_items = 0` (memory usage 0 MB, 4 workers)
the function returns `5`, which is outside the claimed interval
`[5, max 1 (0 // 2)] = [5, 1]`. -/
theorem adaptiveBatchSize_escapes_claimed_interval :
    adaptiveBatchSize 4 0 0 = 5 ∧ ¬ adaptiveBatchSize 4 0 0 ≤ max 1 ((0 / 2 : ℕ) : ℤ) := by
  have h : adaptiveBatchSize 4 0 0 = 5 := by
    unfold adaptiveBatchSize pyInt
    norm_num [max_def, min_def]
  exact ⟨h, by rw [h]; norm_num⟩

/-- Witness for C4 at a concrete input: memory 0 MB vs 2048 MB, 100 items. -/
theorem adaptiveBatchSize_antitone_in_memory_witness :
    adaptiveBatchSize 4 2048 100 ≤ adaptiveBatchSize 4 0 100 :=
  adaptiveBatchSize_antitone_in_memory 4 100 0 2048 (by norm_num)

/-! ## The checkpoint document (checkpoint_manager.py)

`CheckpointManager.checkpoint_data` is a JSON document.  Top-level fields and
the fixed-key sub-documents become structures with `Option` fields; the
`phases` mapping and each phase's `checkpoint` sub-dict (whose keys are open:
`update_checkpoint` merges arbitrary `**kwargs`) become association lists. -/

/-- A JSON value stored inside a phase's `checkpoint` sub-dict.  The only
values this code ever stores there are ints and flat objects of ints
(`_update_batch_checkpoint`'s `{batch_index, batch_size, progress}`). -/
inductive JVal where
  | jnum (n : ℤ)
  | jobj (fields : List (String × ℤ))
deriving DecidableEq, Repr

/-- One entry of the `phases` mapping.  The code reads/writes exactly the
keys `status`, `progress_percentage`, `results_count` and `checkpoint`. -/
structure PhaseData where
  status : Option String
  progress_percentage : Option ℤ
  results_count : Option ℤ
  checkpoint : Option (List (String × JVal))
deriving DecidableEq, Repr

/-- The `statistics` sub-document (`none` = key absent). -/
structure Statistics where
  subdomains_found : Option ℤ
  alive_subdomains : Option ℤ
  vulnerabilities_found : Option ℤ
deriving DecidableEq, Repr

/-- The `environment` sub-document. -/
structure EnvInfo where
  tool_versions : Option (List (String × String))
  templates_hash : Option String
deriving DecidableEq, Repr

/-- `CheckpointManager.checkpoint_data`: the eight top-level fields. -/
structure CheckpointData where
  scan_id : Option String
  domain : Option String
  start_time : Option String
  last_update : Option String
  status : Option String
  phases : Option (List (String × PhaseData))
  statistics : Option Statistics
  environment : Option EnvInfo
deriving DecidableEq, Repr

/-- Python `dict[k] = v` on an association list: overwrite the first match in
place, else append. -/
def dictSet (d : List (String × JVal)) (k : String) (v : JVal) : List (String × JVal) :=
  if (d.lookup k).isSome then d.map (fun kv => if kv.1 = k then (k, v) else kv)
  else d ++ [(k, v)]

/-- Python `dict.update(kwargs)`. -/
def dictUpdate (d : List (String × JVal)) (kwargs : List (String × JVal)) :
    List (String × JVal) :=
  kwargs.foldl (fun acc kv => dictSet acc kv.1 kv.2) d

/-- Python `dict.get(k, default)` for the int-valued reads the code performs
(`phase_data["checkpoint"].get("batch_index", 0)` etc.).  When the key is
present its value is always a `jnum` in every document this code writes. -/
def jnumGetD (d : List (String × JVal)) (k : String) (dflt : ℤ) : ℤ :=
  match d.lookup k with
  | some (.jnum n) => n
  | some (.jobj _) => dflt
  | none => dflt

/-- Update the entry of the `phases` mapping with the given key in place
(Python mutates the phase dict object; keys are unique in a Python dict). -/
def phasesUpdate : List (String × PhaseData) → String → (PhaseData → PhaseData) →
    List (String × PhaseData)
  | [], _, _ => []
  | (a, b) :: tl, k, f =>
    if a = k then (a, f b) :: phasesUpdate tl k f else (a, b) :: phasesUpdate tl k f

/-- `CheckpointManager.update_phase_status` (checkpoint_manager.py 318–348).
Returns the new document and whether `_write_checkpoint` ran.  `now` is
`datetime.datetime.now().isoformat()`.  When the phase is unknown only a
warning is logged.  (If the `phases` key itself were absent Python would
raise `KeyError`; every caller in this development has it present.) -/
def update_phase_status (d : CheckpointData) (now phase status : String)
    (progress results_count : ℤ) : CheckpointData × Bool :=
  match d.phases with
  | some ps =>
    if (ps.lookup phase).isSome then
      ({ d with
          phases := some (phasesUpdate ps phase (fun pd =>
            { pd with status := some status, progress_percentage := some progress,
                      results_count := some results_count })),
          last_update := some now }, true)
    else (d, false)
  | none => (d, false)

/-- `CheckpointManager.update_checkpoint` (checkpoint_manager.py 350–379):
merges the keyword arguments into the phase's `checkpoint` sub-dict
(creating it when absent).  Unknown phase: warning only, no mutation. -/
def update_checkpoint (d : CheckpointData) (now phase : String)
    (kwargs : List (String × JVal)) : CheckpointData × Bool :=
  match d.phases with
  | some ps =>
    if (ps.lookup phase).isSome then
      ({ d with
          phases := some (phasesUpdate ps phase (fun pd =>
            { pd with checkpoint := some (dictUpdate (pd.checkpoint.getD []) kwargs) })),
          last_update := some now }, true)
    else (d, false)
  | none => (d, false)

/-- One step of `update_statistics`' loop: `if key in statistics: statistics[key] = value`. -/
def statSet (s : Statistics) (k : String) (v : ℤ) : Statistics :=
  if k = "subdomains_found" then
    if s.subdomains_found.isSome then { s with subdomains_found := some v } else s
  else if k = "alive_subdomains" then
    if s.alive_subdomains.isSome then { s with alive_subdomains := some v } else s
  else if k = "vulnerabilities_found" then
    if s.vulnerabilities_found.isSome then { s with vulnerabilities_found := some v } else s
  else s

/-- `CheckpointManager.update_statistics` (checkpoint_manager.py 381–403):
merges only recognized statistic keys, refreshes `last_update`, writes. -/
def update_statistics (d : CheckpointData) (now : String)
    (kwargs : List (String × ℤ)) : CheckpointData × Bool :=
  match d.statistics with
  | some s =>
    ({ d with statistics := some (kwargs.foldl (fun acc kv => statSet acc kv.1 kv.2) s),
              last_update := some now }, true)
  | none => (d, false)

/-- `CheckpointManager.set_scan_status` (checkpoint_manager.py 427–447). -/
def set_scan_status (d : CheckpointData) (now status : String) : CheckpointData × Bool :=
  ({ d with status := some status, last_update := some now }, true)

/-- `CheckpointManager.get_phase_status` (checkpoint_manager.py 552–570). -/
def get_phase_status (d : CheckpointData) (phase : String) : Option String :=
  ((d.phases.getD []).lookup phase).bind (fun pd => pd.status)

/-- `CheckpointManager.get_phase_data` (checkpoint_manager.py 572–590). -/
def get_phase_data (d : CheckpointData) (phase : String) : Option PhaseData :=
  (d.phases.getD []).lookup phase

/-- A phase entry as built by `initialize_checkpoint` /
`_create_default_phases` / `_repair_missing_phases`. -/
def defaultPhase : PhaseData :=
  { status := some "pending", progress_percentage := some 0, results_count := some 0,
    checkpoint := none }

def default_phases : List (String × PhaseData) :=
  [("subdomain_enumeration", defaultPhase), ("alive_check", defaultPhase),
   ("vulnerability_scan", defaultPhase)]

def default_statistics : Statistics :=
  { subdomains_found := some 0, alive_subdomains := some 0, vulnerabilities_found := some 0 }

def default_environment : EnvInfo :=
  { tool_versions := some [], templates_hash := some "" }

/-- `CheckpointManager.initialize_checkpoint` (checkpoint_manager.py 270–316). -/
def initialize_checkpoint (scan_id dom now : String)
    (tool_versions : List (String × String)) : CheckpointData :=
  { scan_id := some scan_id, domain := some dom, start_time := some now,
    last_update := some now, status := some "in_progress",
    phases := some default_phases,
    statistics := default_statistics,
    environment := some { tool_versions := some tool_versions, templates_hash := some "" } }

/-! ### `verify_checkpoint_integrity` (checkpoint_manager.py 783–846) -/

/-- The `required_fields` presence scan of `verify_checkpoint_integrity`
(and the field list of `_repair_missing_fields`). -/
def requiredFieldIssues (d : CheckpointData) : List String :=
  (if d.scan_id.isSome then [] else ["Missing required field: scan_id"]) ++
  (if d.domain.isSome then [] else ["Missing required field: domain"]) ++
  (if d.start_time.isSome then [] else ["Missing required field: start_time"]) ++
  (if d.last_update.isSome then [] else ["Missing required field: last_update"]) ++
  (if d.status.isSome then [] else ["Missing required field: status"]) ++
  (if d.phases.isSome then [] else ["Missing required field: phases"]) ++
  (if d.statistics.isSome then [] else ["Missing required field: statistics"]) ++
  (if d.environment.isSome then [] else ["Missing required field: environment"])

/-- The per-phase structure checks of `verify_checkpoint_integrity`. -/
def phaseIssues (ps : List (String × PhaseData)) (name : String) : List String :=
  match ps.lookup name with
  | none => ["Missing phase: " ++ name]
  | some pd =>
    (if pd.status.isSome then [] else ["Missing status in phase: " ++ name]) ++
    (if pd.progress_percentage.isSome then []
     else ["Missing progress percentage in phase: " ++ name]) ++
    (if pd.results_count.isSome then [] else ["Missing results count in phase: " ++ name])

/-- The statistics-key checks of `verify_checkpoint_integrity`. -/
def statIssues (s : Statistics) : List String :=
  (if s.subdomains_found.isSome then [] else ["Missing statistic: subdomains_found"]) ++
  (if s.alive_subdomains.isSome then [] else ["Missing statistic: alive_subdomains"]) ++
  (if s.vulnerabilities_found.isSome then [] else ["Missing statistic: vulnerabilities_found"])

/-- The issues collected by `verify_checkpoint_integrity` after the
required-field scan has passed: domain mismatch, phase structure,
statistics keys, environment tool versions — in source order. -/
def verifyIssues (dom : String) (d : CheckpointData) : List String :=
  (if d.domain = some dom then [] else ["Domain mismatch"]) ++
  (phaseIssues (d.phases.getD []) "subdomain_enumeration" ++
   phaseIssues (d.phases.getD []) "alive_check" ++
   phaseIssues (d.phases.getD []) "vulnerability_scan") ++
  statIssues (d.statistics.getD ⟨none, none, none⟩) ++
  (if ((d.environment.getD ⟨none, none⟩).tool_versions).isSome then []
   else ["Missing tool versions in environment"])

/-- `CheckpointManager.verify_checkpoint_integrity` for an initialized
document.  `dom` is `self.domain` (the domain of the current invocation).
Returns `(is_valid, issues)`; when any required top-level field is missing
it returns early with `(False, issues)`. -/
def verify_checkpoint_integrity (dom : String) (d : CheckpointData) :
    Bool × List String :=
  if (requiredFieldIssues d).isEmpty then
    ((verifyIssues dom d).isEmpty, verifyIssues dom d)
  else
    (false, requiredFieldIssues d)

/-! ### `repair_checkpoint` (checkpoint_manager.py 617–749) -/

/-- `_repair_missing_phases`: insert a `pending` entry for each of the three
required phases that is absent (Python dict insertion appends). -/
def repair_missing_phases (ps : List (String × PhaseData)) : List (String × PhaseData) :=
  ["subdomain_enumeration", "alive_check", "vulnerability_scan"].foldl
    (fun acc name => if (acc.lookup name).isSome then acc else acc ++ [(name, defaultPhase)])
    ps

/-- `CheckpointManager.repair_checkpoint` on an initialized document:
`_repair_missing_fields` (each absent top-level field gets its
`_add_missing_field` default — `new_scan_id` models `_generate_scan_id()`,
`now` the current timestamp) followed by `_repair_missing_phases`, then a
disk write.  A present field is never replaced. -/
def repair_checkpoint (dom new_scan_id now : String) (d : CheckpointData) : CheckpointData :=
  let d' : CheckpointData :=
    { scan_id := some (d.scan_id.getD new_scan_id)
      domain := some (d.domain.getD dom)
      start_time := some (d.start_time.getD now)
      last_update := some (d.last_update.getD now)
      status := some (d.status.getD "in_progress")
      phases := some (d.phases.getD default_phases)
      statistics := some (d.statistics.getD default_statistics)
      environment := some (d.environment.getD default_environment) }
  { d' with phases := some (repair_missing_phases (d'.phases.getD [])) }

/-- A subset of the eight top-level fields (`true` = remove the field). -/
structure FieldMask where
  scan_id : Bool
  domain : Bool
  start_time : Bool
  last_update : Bool
  status : Bool
  phases : Bool
  statistics : Bool
  environment : Bool
deriving DecidableEq, Repr

/-- Remove the masked subset of top-level fields from a document. -/
def eraseFields (d : CheckpointData) (m : FieldMask) : CheckpointData :=
  { scan_id := if m.scan_id then none else d.scan_id
    domain := if m.domain then none else d.domain
    start_time := if m.start_time then none else d.start_time
    last_update := if m.last_update then none else d.last_update
    status := if m.status then none else d.status
    phases := if m.phases then none else d.phases
    statistics := if m.statistics then none else d.statistics
    environment := if m.environment then none else d.environment }

/-! ### C10: unknown phase names -/

/-- C10: for a phase name not present in the `phases` mapping,
`update_phase_status` and `update_checkpoint` leave the in-memory document
entirely unchanged (including `last_update`) and perform no disk write. -/
theorem unknown_phase_updates_are_noops (d : CheckpointData)
    (ps : List (String × PhaseData)) (now phase status : String)
    (progress results_count : ℤ) (kwargs : List (String × JVal))
    (hps : d.phases = some ps) (h : ps.lookup phase = none) :
    update_phase_status d now phase status progress results_count = (d, false) ∧
      update_checkpoint d now phase kwargs = (d, false) := by
  simp [update_phase_status, update_checkpoint, hps, h]

/-- Witness for C10 on a freshly initialized checkpoint and the phase name
`"port_scan"`, which is not one of the three fixed phases. -/
theorem unknown_phase_updates_are_noops_witness :
    update_phase_status (initialize_checkpoint "id0" "example.com" "t0" []) "t1"
        "port_scan" "completed" 100 3 =
      (initialize_checkpoint "id0" "example.com" "t0" [], false) ∧
    update_checkpoint (initialize_checkpoint "id0" "example.com" "t0" []) "t1"
        "port_scan" [("batch_index", .jnum 1)] =
      (initialize_checkpoint "id0" "example.com" "t0" [], false) :=
  unknown_phase_updates_are_noops _ default_phases "t1" "port_scan" "completed"
    100 3 [("batch_index", .jnum 1)] rfl (by decide)

/-! ### C5: repair of documents with missing top-level fields -/

lemma ite_nil_singleton_eq_nil {P : Prop} [Decidable P] {x : String} :
    ((if P then ([] : List String) else [x]) = []) ↔ P := by
  split <;> simp_all

lemma requiredFieldIssues_eq_nil_iff (d : CheckpointData) :
    requiredFieldIssues d = [] ↔
      d.scan_id.isSome ∧ d.domain.isSome ∧ d.start_time.isSome ∧
        d.last_update.isSome ∧ d.status.isSome ∧ d.phases.isSome ∧
        d.statistics.isSome ∧ d.environment.isSome := by
  simp only [requiredFieldIssues, List.append_eq_nil, ite_nil_singleton_eq_nil]
  tauto

lemma phaseIssues_eq_nil_iff (ps : List (String × PhaseData)) (name : String) :
    phaseIssues ps name = [] ↔
      ∃ pd, ps.lookup name = some pd ∧ pd.status.isSome ∧
        pd.progress_percentage.isSome ∧ pd.results_count.isSome := by
  unfold phaseIssues
  cases h : ps.lookup name with
  | none => simp
  | some pd =>
    simp only [List.append_eq_nil, ite_nil_singleton_eq_nil, Option.some.injEq]
    constructor
    · rintro ⟨⟨h1, h2⟩, h3⟩; exact ⟨pd, rfl, h1, h2, h3⟩
    · rintro ⟨pd', hpd, h1, h2, h3⟩
      subst hpd
      exact ⟨⟨h1, h2⟩, h3⟩

lemma statIssues_eq_nil_iff (s : Statistics) :
    statIssues s = [] ↔
      s.subdomains_found.isSome ∧ s.alive_subdomains.isSome ∧
        s.vulnerabilities_found.isSome := by
  simp only [statIssues, List.append_eq_nil, ite_nil_singleton_eq_nil]
  tauto

/-- The shape of a document that `verify_checkpoint_integrity` accepts. -/
lemma verify_ok_elim {dom : String} {d : CheckpointData}
    (h : verify_checkpoint_integrity dom d = (true, [])) :
    d.scan_id.isSome ∧ d.domain = some dom ∧ d.start_time.isSome ∧
      d.last_update.isSome ∧ d.status.isSome ∧
      (∃ ps, d.phases = some ps ∧
        phaseIssues ps "subdomain_enumeration" = [] ∧
        phaseIssues ps "alive_check" = [] ∧
        phaseIssues ps "vulnerability_scan" = []) ∧
      (∃ s, d.statistics = some s ∧ statIssues s = []) ∧
      (∃ e, d.environment = some e ∧ e.tool_versions.isSome) := by
  unfold verify_checkpoint_integrity at h
  by_cases hf : (requiredFieldIssues d).isEmpty
  · rw [if_pos hf] at h
    have hfields := (requiredFieldIssues_eq_nil_iff d).mp (List.isEmpty_iff.mp hf)
    obtain ⟨h1, h2, h3, h4, h5, h6, h7, h8⟩ := hfields
    have hiss : verifyIssues dom d = [] := congrArg Prod.snd h
    unfold verifyIssues at hiss
    simp only [List.append_eq_nil] at hiss
    obtain ⟨⟨⟨hdom, ⟨⟨hph1, hph2⟩, hph3⟩⟩, hst⟩, henv⟩ := hiss
    refine ⟨h1, ?_, h3, h4, h5, ?_, ?_, ?_⟩
    · by_contra hne
      rw [if_neg hne] at hdom
      exact List.cons_ne_nil _ _ hdom
    · obtain ⟨ps, hps⟩ := Option.isSome_iff_exists.mp h6
      rw [hps] at hph1 hph2 hph3
      simp only [Option.getD_some] at hph1 hph2 hph3
      exact ⟨ps, hps, hph1, hph2, hph3⟩
    · obtain ⟨s, hs⟩ := Option.isSome_iff_exists.mp h7
      rw [hs] at hst
      simp only [Option.getD_some] at hst
      exact ⟨s, hs, hst⟩
    · obtain ⟨e, he⟩ := Option.isSome_iff_exists.mp h8
      refine ⟨e, he, ?_⟩
      by_contra hne
      rw [he] at henv
      simp only [Option.getD_some] at henv
      rw [if_neg hne] at henv
      exact List.cons_ne_nil _ _ henv
  · rw [if_neg hf] at h
    exact absurd (congrArg Prod.fst h) (by simp)

lemma repair_missing_phases_eq_self {ps : List (String × PhaseData)}
    (h1 : (ps.lookup "subdomain_enumeration").isSome)
    (h2 : (ps.lookup "alive_check").isSome)
    (h3 : (ps.lookup "vulnerability_scan").isSome) :
    repair_missing_phases ps = ps := by
  simp [repair_missing_phases, h1, h2, h3]

/-- C5: erasing any subset of the eight required top-level fields from a
document that `verify_checkpoint_integrity` accepts for the current domain,
then running `repair_checkpoint`, yields a document that verifies as
`(true, [])` again — and `repair_checkpoint` never alters a field that was
left in place. -/
theorem repair_then_verify_ok (dom new_scan_id now : String)
    (d : CheckpointData) (m : FieldMask)
    (h : verify_checkpoint_integrity dom d = (true, [])) :
    verify_checkpoint_integrity dom
        (repair_checkpoint dom new_scan_id now (eraseFields d m)) = (true, []) ∧
      (m.scan_id = false →
        (repair_checkpoint dom new_scan_id now (eraseFields d m)).scan_id = d.scan_id) ∧
      (m.domain = false →
        (repair_checkpoint dom new_scan_id now (eraseFields d m)).domain = d.domain) ∧
      (m.start_time = false →
        (repair_checkpoint dom new_scan_id now (eraseFields d m)).start_time = d.start_time) ∧
      (m.last_update = false →
        (repair_checkpoint dom new_scan_id now (eraseFields d m)).last_update = d.last_update) ∧
      (m.status = false →
        (repair_checkpoint dom new_scan_id now (eraseFields d m)).status = d.status) ∧
      (m.phases = false →
        (repair_checkpoint dom new_scan_id now (eraseFields d m)).phases = d.phases) ∧
      (m.statistics = false →
        (repair_checkpoint dom new_scan_id now (eraseFields d m)).statistics = d.statistics) ∧
      (m.environment = false →
        (repair_checkpoint dom new_scan_id now (eraseFields d m)).environment = d.environment) := by
  obtain ⟨h1, h2, h3, h4, h5, ⟨ps, hps, hp1, hp2, hp3⟩, ⟨s, hs, hstat⟩, ⟨e, he, henv⟩⟩ :=
    verify_ok_elim h
  obtain ⟨pd1, hl1, -⟩ := (phaseIssues_eq_nil_iff _ _).mp hp1
  obtain ⟨pd2, hl2, -⟩ := (phaseIssues_eq_nil_iff _ _).mp hp2
  obtain ⟨pd3, hl3, -⟩ := (phaseIssues_eq_nil_iff _ _).mp hp3
  have hself : repair_missing_phases ps = ps :=
    repair_missing_phases_eq_self (by simp [hl1]) (by simp [hl2]) (by simp [hl3])
  have hdefphases : repair_missing_phases default_phases = default_phases := by decide
  -- the four structured fields of the repaired document, in both mask cases
  have hphases : (repair_checkpoint dom new_scan_id now (eraseFields d m)).phases =
      some (if m.phases then default_phases else ps) := by
    cases hm : m.phases <;>
      simp [repair_checkpoint, eraseFields, hm, hps, hself, hdefphases]
  have hdomf : (repair_checkpoint dom new_scan_id now (eraseFields d m)).domain =
      some dom := by
    cases hm : m.domain <;> simp [repair_checkpoint, eraseFields, hm, h2]
  have hstatsf : (repair_checkpoint dom new_scan_id now (eraseFields d m)).statistics =
      some (if m.statistics then default_statistics else s) := by
    cases hm : m.statistics <;> simp [repair_checkpoint, eraseFields, hm, hs]
  have henvf : (repair_checkpoint dom new_scan_id now (eraseFields d m)).environment =
      some (if m.environment then default_environment else e) := by
    cases hm : m.environment <;> simp [repair_checkpoint, eraseFields, hm, he]
  constructor
  · -- the repaired document verifies
    have hph1' : phaseIssues ((repair_checkpoint dom new_scan_id now
        (eraseFields d m)).phases.getD []) "subdomain_enumeration" = [] := by
      rw [hphases]; simp only [Option.getD_some]
      cases m.phases
      · simpa using hp1
      · simpa using (by decide : phaseIssues default_phases "subdomain_enumeration" = [])
    have hph2' : phaseIssues ((repair_checkpoint dom new_scan_id now
        (eraseFields d m)).phases.getD []) "alive_check" = [] := by
      rw [hphases]; simp only [Option.getD_some]
      cases m.phases
      · simpa using hp2
      · simpa using (by decide : phaseIssues default_phases "alive_check" = [])
    have hph3' : phaseIssues ((repair_checkpoint dom new_scan_id now
        (eraseFields d m)).phases.getD []) "vulnerability_scan" = [] := by
      rw [hphases]; simp only [Option.getD_some]
      cases m.phases
      · simpa using hp3
      · simpa using (by decide : phaseIssues default_phases "vulnerability_scan" = [])
    have hstatOK : statIssues ((repair_checkpoint dom new_scan_id now
        (eraseFields d m)).statistics.getD ⟨none, none, none⟩) = [] := by
      rw [hstatsf]; simp only [Option.getD_some]
      cases m.statistics
      · simpa using hstat
      · simpa using (by decide : statIssues default_statistics = [])
    have henvOK : (((repair_checkpoint dom new_scan_id now
        (eraseFields d m)).environment.getD ⟨none, none⟩).tool_versions).isSome := by
      rw [henvf]; simp only [Option.getD_some]
      cases m.environment
      · simpa using henv
      · simp [default_environment]
    have hissOK : verifyIssues dom
        (repair_checkpoint dom new_scan_id now (eraseFields d m)) = [] := by
      unfold verifyIssues
      rw [hdomf, if_pos rfl, hph1', hph2', hph3', hstatOK, if_pos henvOK]
      simp
    unfold verify_checkpoint_integrity
    rw [if_pos, hissOK]
    · simp
    · rw [List.isEmpty_iff, requiredFieldIssues_eq_nil_iff]
      simp [repair_checkpoint]
  · -- present fields are unchanged
    obtain ⟨sid, hsid⟩ := Option.isSome_iff_exists.mp h1
    obtain ⟨st0, hst0⟩ := Option.isSome_iff_exists.mp h3
    obtain ⟨lu, hlu⟩ := Option.isSome_iff_exists.mp h4
    obtain ⟨stat0, hstat0⟩ := Option.isSome_iff_exists.mp h5
    refine ⟨?_, ?_, ?_, ?_, ?_, ?_, ?_, ?_⟩ <;> intro hm
    · simp [repair_checkpoint, eraseFields, hm, hsid]
    · simp [repair_checkpoint, eraseFields, hm, h2]
    · simp [repair_checkpoint, eraseFields, hm, hst0]
    · simp [repair_checkpoint, eraseFields, hm, hlu]
    · simp [repair_checkpoint, eraseFields, hm, hstat0]
    · rw [hphases, hps]
      simp [hm]
    · rw [hstatsf, hs]
      simp [hm]
    · rw [henvf, he]
      simp [hm]

/-! ## The scan pipeline (scanner.py)

Text files are lists of lines.  Every subprocess spawn of one of the three
phase tools is an event in a trace; the external world (tool stdout, the
memory readings behind `_adaptive_batch_size`) is a `ScanEnv`. -/

/-- Python `str.isspace` characters that matter for `str.strip` here. -/
def isPySpace (c : Char) : Bool := c == ' ' || c == '\t' || c == '\n' || c == '\r'

/-- Python `str.strip()`. -/
def pyStrip (s : String) : String :=
  String.mk (((s.data.dropWhile isPySpace).reverse.dropWhile isPySpace).reverse)

/-- Python `set(line.strip() for line in ... if line.strip())`, as the list
of distinct stripped non-blank lines (only membership and size are used). -/
def cleanSet (ls : List String) : List String :=
  ((ls.map pyStrip).filter (fun l => l != "")).dedup

/-- Python `<` on strings: lexicographic comparison by code point. -/
def charListLe : List Char → List Char → Bool
  | [], _ => true
  | _ :: _, [] => false
  | a :: as, b :: bs =>
    if a.toNat < b.toNat then true
    else if b.toNat < a.toNat then false
    else charListLe as bs

def strLe (a b : String) : Bool := charListLe a.data b.data

/-- Python `sorted(...)` on strings (stability is irrelevant here). -/
def pySorted (ls : List String) : List String :=
  List.insertionSort (fun a b => strLe a b = true) ls

/-- One subprocess invocation of a phase's external tool. -/
inductive ToolInv where
  | subfinder
  | httpx
  | nuclei
deriving DecidableEq, Repr

/-- The three result artifacts in the scan's output directory, each as its
list of lines (`none` = the file does not exist). -/
structure ScanFiles where
  subdomains_txt : Option (List String)
  alive_txt : Option (List String)
  results_txt : Option (List String)
deriving DecidableEq, Repr

/-- The fields of the transient `scan_state` dict that this core writes. -/
structure ScanTransient where
  status : String
  subdomains : ℕ
  alive_subdomains : ℕ
  vulnerabilities : ℕ
deriving DecidableEq, Repr

/-- The mutable state a scan run threads: the checkpoint document, the
artifact files, the transient scan state, and (instrumentation for C7) the
value of the `statistics` sub-document after every `update_statistics`
call. -/
structure ScanSt where
  ckpt : CheckpointData
  files : ScanFiles
  scanState : ScanTransient
  statsLog : List (ℤ × ℤ × ℤ)

/-- The external world: `now` timestamps, the subfinder result cache, the
stdout of the three tools, and the value `_adaptive_batch_size` returns at
each call site (it reads ambient process memory; by
`adaptiveBatchSize_bounds` it is always ≥ 5). -/
structure ScanEnv where
  now : String
  cacheHit : Bool
  subfinderLines : List String
  httpxLines : ℕ → List String
  nucleiVulns : ℕ → ℕ
  batchSizeFor : ℕ → ℕ

/-- Result of a (possibly raising) pipeline step: the produced value or the
exception message, the state at that point, and the tool invocations the
step performed. -/
inductive PRes (α : Type) where
  | ok (val : α) (st : ScanSt) (invs : List ToolInv)
  | err (msg : String) (st : ScanSt) (invs : List ToolInv)

def PRes.invs {α : Type} : PRes α → List ToolInv
  | .ok _ _ invs => invs
  | .err _ _ invs => invs

def PRes.stOf {α : Type} : PRes α → ScanSt
  | .ok _ st _ => st
  | .err _ st _ => st

def PRes.isErr {α : Type} : PRes α → Bool
  | .ok _ _ _ => false
  | .err _ _ _ => true

/-- The `(subdomains_found, alive_subdomains, vulnerabilities_found)` values
of the document (0 for an absent key, matching `get_scan_summary`'s
`.get(..., 0)` reads). -/
def statsView (d : CheckpointData) : ℤ × ℤ × ℤ :=
  match d.statistics with
  | some s => (s.subdomains_found.getD 0, s.alive_subdomains.getD 0,
               s.vulnerabilities_found.getD 0)
  | none => (0, 0, 0)

/-- `update_statistics` as used by the pipeline, logging the resulting
statistics (instrumentation for C7; the document change is exactly
`update_statistics`). -/
def doUpdateStats (now : String) (st : ScanSt) (kwargs : List (String × ℤ)) : ScanSt :=
  let d := (update_statistics st.ckpt now kwargs).1
  { st with ckpt := d, statsLog := st.statsLog ++ [statsView d] }

/-- `update_phase_status` as used by the pipeline. -/
def doUpdatePhase (now : String) (st : ScanSt) (phase status : String)
    (progress results_count : ℤ) : ScanSt :=
  { st with ckpt := (update_phase_status st.ckpt now phase status progress results_count).1 }

/-- `SecurityScanner._run_subfinder` (scanner.py 505–592).  Tool
availability (`ensure_tool_exists`) is modelled as succeeding; `save_checkpoint`
writes carry no state change.  On a cache hit the subprocess is skipped and
the cached stdout (same `env.subfinderLines`) is used. -/
def run_subfinder (resuming : Bool) (env : ScanEnv) (st : ScanSt) : PRes (List String) :=
  if resuming && (get_phase_status st.ckpt "subdomain_enumeration" == some "completed") then
    match st.files.subdomains_txt with
    | none => .err "Subdomain file not found" st []
    | some ls =>
      let subdomains := cleanSet ls
      .ok subdomains
        { st with scanState := { st.scanState with subdomains := subdomains.length } } []
  else
    let st := doUpdatePhase env.now st "subdomain_enumeration" "in_progress" 0 0
    let st := { st with scanState := { st.scanState with status := "enumerating_subdomains" } }
    let invs : List ToolInv := if env.cacheHit then [] else [.subfinder]
    let subdomains := cleanSet env.subfinderLines
    let st := { st with files := { st.files with subdomains_txt := some (pySorted subdomains) } }
    let st := { st with scanState := { st.scanState with subdomains := subdomains.length } }
    let st := doUpdateStats env.now st [("subdomains_found", (subdomains.length : ℤ))]
    let st := doUpdatePhase env.now st "subdomain_enumeration" "completed" 100
      (subdomains.length : ℤ)
    .ok subdomains st invs

/-- `SecurityScanner._get_alive_check_resume_state` (scanner.py 703–718):
`phase_data["checkpoint"].get("batch_index", 0) *
phase_data["checkpoint"].get("batch_size", 0)` when resuming and the phase
has a `checkpoint` key. -/
def get_alive_check_resume_state (resuming : Bool) (d : CheckpointData) : ℤ :=
  if resuming then
    match get_phase_data d "alive_check" with
    | some pd =>
      match pd.checkpoint with
      | some ck => jnumGetD ck "batch_index" 0 * jnumGetD ck "batch_size" 0
      | none => 0
    | none => 0
  else 0

/-- `SecurityScanner._update_batch_checkpoint` (scanner.py 790–800).  The
Python call is `update_checkpoint(phase="alive_check", checkpoint={...})`,
so the keyword arguments dict is `{"checkpoint": {...}}` — the batch state
lands under the key `"checkpoint"` *inside* the phase's `checkpoint`
sub-dict.  `int((batch_idx / total_batches) * 100)` is the (non-negative)
truncated percentage. -/
def update_batch_checkpoint (now : String) (st : ScanSt)
    (batch_idx batch_size total_batches : ℕ) : ScanSt :=
  { st with ckpt := (update_checkpoint st.ckpt now "alive_check"
      [("checkpoint", .jobj
        [("batch_index", (batch_idx : ℤ)), ("batch_size", (batch_size : ℤ)),
         ("progress", ((batch_idx * 100 / total_batches : ℕ) : ℤ))])]).1 }

/-- The `for batch_idx in range(start_batch, total_batches)` loop of
`_process_httpx_batches`, with `_process_single_httpx_batch` inlined:
checkpoint write, one `httpx` invocation, result accumulation, progress
update.  First argument: number of remaining iterations. -/
def httpx_batch_loop (env : ScanEnv) :
    ℕ → ℕ → ℕ → ℕ → ScanSt → List String → List ToolInv →
      ScanSt × List String × List ToolInv
  | 0, _, _, _, st, all_alive, invs => (st, all_alive, invs)
  | n + 1, batch_idx, batch_size, total_batches, st, all_alive, invs =>
    let st := update_batch_checkpoint env.now st batch_idx batch_size total_batches
    let alive_batch := env.httpxLines batch_idx
    let all' := all_alive ++ alive_batch
    let st := doUpdatePhase env.now st "alive_check" "in_progress"
      (((batch_idx + 1) * 100 / total_batches : ℕ) : ℤ) (all'.length : ℤ)
    let st := { st with scanState := { st.scanState with alive_subdomains := all'.length } }
    httpx_batch_loop env n (batch_idx + 1) batch_size total_batches st all' (invs ++ [.httpx])

/-- `SecurityScanner._save_alive_results` (scanner.py 828–853). -/
def save_alive_results (now : String) (st : ScanSt) (alive_sorted : List String)
    (alive_count : ℕ) : ScanSt :=
  let st := { st with files := { st.files with alive_txt := some alive_sorted } }
  let st := doUpdateStats now st [("alive_subdomains", (alive_count : ℤ))]
  doUpdatePhase now st "alive_check" "completed" 100 (alive_count : ℤ)

/-- `SecurityScanner._process_httpx_batches` (scanner.py 720–752):
`batch_size = _adaptive_batch_size(len)`, ceil-divide into batches, skip
`processed_count // batch_size` batches when `processed_count > 0`, run the
loop, then `_save_alive_results` with the sorted alive list. -/
def process_httpx_batches (env : ScanEnv) (st : ScanSt) (subdomain_list : List String)
    (processed_count : ℤ) : ScanSt × List String × List ToolInv :=
  let batch_size := env.batchSizeFor subdomain_list.length
  let total_batches := (subdomain_list.length + batch_size - 1) / batch_size
  let start_batch := if 0 < processed_count then (processed_count.fdiv batch_size).toNat else 0
  let r := httpx_batch_loop env (total_batches - start_batch) start_batch batch_size
    total_batches st [] []
  let st := save_alive_results env.now r.1 (pySorted r.2.1) r.2.1.length
  (st, pySorted r.2.1, r.2.2)

/-- `SecurityScanner._run_httpx` (scanner.py 623–692), including
`_load_completed_alive_check` (675–692, which raises `FileNotFoundError`
when `alive.txt` is missing despite the completed marker) and
`_initialize_alive_check_phase` (694–701). -/
def run_httpx (resuming : Bool) (env : ScanEnv) (st : ScanSt)
    (subdomains : List String) : PRes (List String) :=
  if resuming && (get_phase_status st.ckpt "alive_check" == some "completed") then
    match st.files.alive_txt with
    | none => .err "Alive subdomains file not found" st []
    | some ls =>
      let alive_subdomains := (ls.filter (fun l => pyStrip l != "")).length
      .ok ls
        { st with scanState := { st.scanState with alive_subdomains := alive_subdomains } } []
  else
    let st := doUpdatePhase env.now st "alive_check" "in_progress" 0 0
    let processed_count := get_alive_check_resume_state resuming st.ckpt
    let st := { st with scanState := { st.scanState with status := "checking_alive_domains" } }
    let r := process_httpx_batches env st subdomains processed_count
    .ok r.2.1 r.1 r.2.2

/-- Python `"...".strip().split("\n")` on a line list: the line count is the
span from the first to the last non-blank line. -/
def trimBlankLines (ls : List String) : List String :=
  ((ls.dropWhile (fun l => pyStrip l == "")).reverse.dropWhile
    (fun l => pyStrip l == "")).reverse

/-- The `for batch_num in range(total_batches)` loop of
`_process_nuclei_batches` (scanner.py 896–944): `_write_batch_from_source`
moves up to `batch_size` non-blank lines into the batch file; an empty
batch file is skipped without invoking nuclei, otherwise one `nuclei`
invocation happens and its per-batch result dict is appended. -/
def nuclei_batch_loop (env : ScanEnv) (batch_size : ℕ) :
    ℕ → ℕ → List String → List ℕ → List ToolInv → List ℕ × List ToolInv
  | 0, _, _, results, invs => (results, invs)
  | n + 1, batch_num, remaining, results, invs =>
    let valid_lines := (remaining.take batch_size).length
    if valid_lines = 0 then
      nuclei_batch_loop env batch_size n (batch_num + 1) (remaining.drop batch_size)
        results invs
    else
      nuclei_batch_loop env batch_size n (batch_num + 1) (remaining.drop batch_size)
        (results ++ [env.nucleiVulns batch_num]) (invs ++ [.nuclei])

/-- The main body of `SecurityScanner._run_nuclei` (scanner.py 1113–1201):
mark in-progress, handle an empty target string, otherwise re-write
`alive.txt`, run the batches, write `results.txt` (always empty: no batch
result dict ever carries a `"raw_result"` key), record
`vulnerability_count = len(results)` — the number of executed batches. -/
def nuclei_scan_body (env : ScanEnv) (st : ScanSt) (alive_lines : List String) :
    PRes Unit :=
  let st := doUpdatePhase env.now st "vulnerability_scan" "in_progress" 0 0
  let st := { st with scanState := { st.scanState with status := "scanning_vulnerabilities" } }
  if alive_lines.all (fun l => pyStrip l == "") then
    let st := doUpdatePhase env.now st "vulnerability_scan" "completed" 100 0
    .ok () st []
  else
    let targets_count := (trimBlankLines alive_lines).length
    let st := { st with files := { st.files with alive_txt := some alive_lines } }
    let batch_size := env.batchSizeFor targets_count
    let total_batches := (alive_lines.length + batch_size - 1) / batch_size
    let valid := (alive_lines.map pyStrip).filter (fun l => l != "")
    let r := nuclei_batch_loop env batch_size total_batches 0 valid [] []
    let st := { st with files := { st.files with results_txt := some [] } }
    let vulnerability_count := r.1.length
    let st := { st with scanState := { st.scanState with vulnerabilities := vulnerability_count } }
    let st := doUpdateStats env.now st [("vulnerabilities_found", (vulnerability_count : ℤ))]
    let st := doUpdatePhase env.now st "vulnerability_scan" "completed" 100
      (vulnerability_count : ℤ)
    .ok () st r.2

/-- `SecurityScanner._run_nuclei` (scanner.py 1088–1201).  When resuming
with the phase completed and `results.txt` present, the stored results are
loaded and the function returns; when `results.txt` is *missing* only a
warning is logged and the full scan body runs anyway. -/
def run_nuclei (resuming : Bool) (env : ScanEnv) (st : ScanSt)
    (alive_lines : List String) : PRes Unit :=
  if resuming && (get_phase_status st.ckpt "vulnerability_scan" == some "completed") then
    match st.files.results_txt with
    | some ls =>
      let vulnerability_count := (ls.filter (fun l => pyStrip l != "")).length
      .ok ()
        { st with scanState := { st.scanState with vulnerabilities := vulnerability_count } } []
    | none => nuclei_scan_body env st alive_lines
  else nuclei_scan_body env st alive_lines

/-- The `except` branch of `SecurityScanner.scan` (scanner.py 1285–1299):
mark the scan failed, persist, re-raise. -/
def scan_fail (now msg : String) (st : ScanSt) (invs : List ToolInv) : PRes Unit :=
  let st := { st with scanState := { st.scanState with status := "failed" } }
  let st := { st with ckpt := (set_scan_status st.ckpt now "failed").1 }
  .err msg st invs

/-- Step 1 of `SecurityScanner.scan` (scanner.py 1223–1233): run subfinder
unless resuming with the phase completed, in which case `subdomains.txt` is
re-read from disk (`open` raises `FileNotFoundError` when it is missing). -/
def scan_step1 (resuming : Bool) (env : ScanEnv) (st : ScanSt) : PRes (List String) :=
  if !resuming || !(get_phase_status st.ckpt "subdomain_enumeration" == some "completed") then
    run_subfinder resuming env st
  else
    match st.files.subdomains_txt with
    | none => .err "FileNotFoundError: subdomains.txt" st []
    | some ls => .ok (cleanSet ls) st []

/-- Step 2 of `SecurityScanner.scan` (scanner.py 1235–1245): run httpx
unless resuming with the phase completed, in which case `alive.txt` is
re-read from disk. -/
def scan_step2 (resuming : Bool) (env : ScanEnv) (st : ScanSt)
    (subdomains : List String) : PRes (List String) :=
  if !resuming || !(get_phase_status st.ckpt "alive_check" == some "completed") then
    run_httpx resuming env st subdomains
  else
    match st.files.alive_txt with
    | none => .err "FileNotFoundError: alive.txt" st []
    | some ls => .ok ls st []

/-- Step 3 of `SecurityScanner.scan` (scanner.py 1247–1252): run nuclei
unless resuming with the phase completed, in which case the phase is skipped
with no artifact check at all. -/
def scan_step3 (resuming : Bool) (env : ScanEnv) (st : ScanSt)
    (alive_lines : List String) : PRes Unit :=
  if !resuming || !(get_phase_status st.ckpt "vulnerability_scan" == some "completed") then
    run_nuclei resuming env st alive_lines
  else
    .ok () st []

/-- The prologue of `SecurityScanner.scan` (scanner.py 1214–1217):
`scan_state["status"] = "running"`, `set_scan_status("in_progress")`. -/
def scan_pre (env : ScanEnv) (st : ScanSt) : ScanSt :=
  let st0 := { st with scanState := { st.scanState with status := "running" } }
  { st0 with ckpt := (set_scan_status st0.ckpt env.now "in_progress").1 }

/-- `SecurityScanner.scan` (scanner.py 1203–1299): the three steps in fixed
order; any exception takes the `except` branch (`scan_fail`). -/
def scan (resuming : Bool) (env : ScanEnv) (st : ScanSt) : PRes Unit :=
  match scan_step1 resuming env (scan_pre env st) with
  | .err msg st' invs => scan_fail env.now msg st' invs
  | .ok subdomains st' invs1 =>
    match scan_step2 resuming env st' subdomains with
    | .err msg st'' invs2 => scan_fail env.now msg st'' (invs1 ++ invs2)
    | .ok alive_lines st'' invs2 =>
      match scan_step3 resuming env st'' alive_lines with
      | .err msg st3 invs3 => scan_fail env.now msg st3 (invs1 ++ invs2 ++ invs3)
      | .ok _ st3 invs3 =>
        let st4 := { st3 with scanState := { st3.scanState with status := "completed" } }
        let st5 := { st4 with ckpt := (set_scan_status st4.ckpt env.now "completed").1 }
        .ok () st5 (invs1 ++ invs2 ++ invs3)

/-! ## Frame lemmas about the checkpoint operations -/

lemma lookup_phasesUpdate_ne (ps : List (String × PhaseData)) (k k' : String)
    (f : PhaseData → PhaseData) (h : k' ≠ k) :
    (phasesUpdate ps k f).lookup k' = ps.lookup k' := by
  induction ps with
  | nil => rfl
  | cons kv tl ih =>
    obtain ⟨a, b⟩ := kv
    by_cases hk : a = k
    · subst hk
      rw [phasesUpdate, if_pos rfl]
      simp only [List.lookup, beq_eq_false_iff_ne.mpr h]
      exact ih
    · rw [phasesUpdate, if_neg hk]
      by_cases ha : k' = a
      · subst ha
        simp [List.lookup]
      · simp only [List.lookup, beq_eq_false_iff_ne.mpr ha]
        exact ih

lemma lookup_phasesUpdate_self (ps : List (String × PhaseData)) (k : String)
    (f : PhaseData → PhaseData) :
    (phasesUpdate ps k f).lookup k = (ps.lookup k).map f := by
  induction ps with
  | nil => rfl
  | cons kv tl ih =>
    obtain ⟨a, b⟩ := kv
    by_cases hk : a = k
    · subst hk
      rw [phasesUpdate, if_pos rfl]
      simp [List.lookup]
    · rw [phasesUpdate, if_neg hk]
      simp only [List.lookup, beq_eq_false_iff_ne.mpr (fun hh : k = a => hk hh.symm)]
      exact ih

@[simp] lemma statistics_update_phase_status (d : CheckpointData) (now ph s : String)
    (p c : ℤ) : (update_phase_status d now ph s p c).1.statistics = d.statistics := by
  cases hps : d.phases with
  | none => simp [update_phase_status, hps]
  | some ps =>
    by_cases h : (ps.lookup ph).isSome <;> simp [update_phase_status, hps, h]

@[simp] lemma statistics_update_checkpoint (d : CheckpointData) (now ph : String)
    (kw : List (String × JVal)) :
    (update_checkpoint d now ph kw).1.statistics = d.statistics := by
  cases hps : d.phases with
  | none => simp [update_checkpoint, hps]
  | some ps =>
    by_cases h : (ps.lookup ph).isSome <;> simp [update_checkpoint, hps, h]

@[simp] lemma statistics_set_scan_status (d : CheckpointData) (now s : String) :
    (set_scan_status d now s).1.statistics = d.statistics := rfl

@[simp] lemma phases_update_statistics (d : CheckpointData) (now : String)
    (kw : List (String × ℤ)) : (update_statistics d now kw).1.phases = d.phases := by
  unfold update_statistics
  cases d.statistics <;> rfl

@[simp] lemma phases_set_scan_status (d : CheckpointData) (now s : String) :
    (set_scan_status d now s).1.phases = d.phases := rfl

@[simp] lemma get_phase_status_update_statistics (d : CheckpointData) (now : String)
    (kw : List (String × ℤ)) (ph : String) :
    get_phase_status (update_statistics d now kw).1 ph = get_phase_status d ph := by
  unfold get_phase_status
  rw [phases_update_statistics]

@[simp] lemma get_phase_status_set_scan_status (d : CheckpointData) (now s ph : String) :
    get_phase_status (set_scan_status d now s).1 ph = get_phase_status d ph := rfl

lemma get_phase_status_update_phase_status_ne (d : CheckpointData)
    (now ph s : String) (p c : ℤ) (ph' : String) (h : ph' ≠ ph) :
    get_phase_status (update_phase_status d now ph s p c).1 ph' =
      get_phase_status d ph' := by
  cases hps : d.phases with
  | none => simp [update_phase_status, get_phase_status, hps]
  | some ps =>
    by_cases hl : (ps.lookup ph).isSome
    · simp [update_phase_status, get_phase_status, hps, hl,
        lookup_phasesUpdate_ne ps ph ph' _ h]
    · simp [update_phase_status, get_phase_status, hps, hl]

@[simp] lemma get_phase_status_update_checkpoint (d : CheckpointData)
    (now ph : String) (kw : List (String × JVal)) (ph' : String) :
    get_phase_status (update_checkpoint d now ph kw).1 ph' = get_phase_status d ph' := by
  cases hps : d.phases with
  | none => simp [update_checkpoint, get_phase_status, hps]
  | some ps =>
    by_cases hl : (ps.lookup ph).isSome
    · by_cases h : ph' = ph
      · subst h
        rcases hx : ps.lookup ph' with _ | pd
        · rw [hx] at hl
          simp at hl
        · simp [update_checkpoint, get_phase_status, hps, hl,
            lookup_phasesUpdate_self, hx]
      · simp [update_checkpoint, get_phase_status, hps, hl,
          lookup_phasesUpdate_ne ps ph ph' _ h]
    · simp [update_checkpoint, get_phase_status, hps, hl]

/-! ## Invocation-trace lemmas for the runners -/

lemma httpx_batch_loop_invs (env : ScanEnv) (n idx bs tb : ℕ) (st : ScanSt)
    (all : List String) (invs : List ToolInv) :
    ∀ t ∈ (httpx_batch_loop env n idx bs tb st all invs).2.2, t ∈ invs ∨ t = .httpx := by
  induction n generalizing idx st all invs with
  | zero => intro t ht; exact Or.inl ht
  | succ n ih =>
    intro t ht
    simp only [httpx_batch_loop] at ht
    rcases ih (idx + 1) _ _ (invs ++ [.httpx]) t ht with h | h
    · rcases List.mem_append.mp h with h | h
      · exact Or.inl h
      · simp at h
        exact Or.inr h
    · exact Or.inr h

lemma run_subfinder_invs (r : Bool) (env : ScanEnv) (st : ScanSt) :
    ∀ t ∈ (run_subfinder r env st).invs, t = .subfinder := by
  unfold run_subfinder
  split
  · split <;> intro t ht <;> simp [PRes.invs] at ht
  · intro t ht
    simp only [PRes.invs] at ht
    split at ht <;> simp_all

lemma run_httpx_invs (r : Bool) (env : ScanEnv) (st : ScanSt) (subs : List String) :
    ∀ t ∈ (run_httpx r env st subs).invs, t = .httpx := by
  unfold run_httpx process_httpx_batches
  split
  · split <;> intro t ht <;> simp [PRes.invs] at ht
  · intro t ht
    simp only [PRes.invs] at ht
    rcases httpx_batch_loop_invs env _ _ _ _ _ _ _ t ht with h | h
    · simp at h
    · exact h

lemma nuclei_batch_loop_invs (env : ScanEnv) (bs n bn : ℕ) (rem : List String)
    (results : List ℕ) (invs : List ToolInv) :
    ∀ t ∈ (nuclei_batch_loop env bs n bn rem results invs).2, t ∈ invs ∨ t = .nuclei := by
  induction n generalizing bn rem results invs with
  | zero => intro t ht; exact Or.inl ht
  | succ n ih =>
    intro t ht
    simp only [nuclei_batch_loop] at ht
    split at ht
    · exact ih _ _ _ _ t ht
    · rcases ih _ _ _ _ t ht with h | h
      · rcases List.mem_append.mp h with h | h
        · exact Or.inl h
        · simp at h
          exact Or.inr h
      · exact Or.inr h

lemma nuclei_scan_body_invs (env : ScanEnv) (st : ScanSt) (al : List String) :
    ∀ t ∈ (nuclei_scan_body env st al).invs, t = .nuclei := by
  unfold nuclei_scan_body
  split
  · intro t ht; simp [PRes.invs] at ht
  · intro t ht
    simp only [PRes.invs] at ht
    rcases nuclei_batch_loop_invs env _ _ _ _ _ _ t ht with h | h
    · simp at h
    · exact h

lemma run_nuclei_invs (r : Bool) (env : ScanEnv) (st : ScanSt) (al : List String) :
    ∀ t ∈ (run_nuclei r env st al).invs, t = .nuclei := by
  unfold run_nuclei
  split
  · split
    · intro t ht
      simp [PRes.invs] at ht
    · exact nuclei_scan_body_invs env st al
  · exact nuclei_scan_body_invs env st al

/-! ## Frame lemmas for the runners and scan steps -/

@[simp] lemma get_phase_status_scan_pre (env : ScanEnv) (st : ScanSt) (q : String) :
    get_phase_status (scan_pre env st).ckpt q = get_phase_status st.ckpt q := by
  simp [scan_pre]

@[simp] lemma files_scan_pre (env : ScanEnv) (st : ScanSt) :
    (scan_pre env st).files = st.files := rfl

lemma run_subfinder_frame (r : Bool) (env : ScanEnv) (st : ScanSt) (ph : String)
    (h : ph ≠ "subdomain_enumeration") :
    get_phase_status (run_subfinder r env st).stOf.ckpt ph = get_phase_status st.ckpt ph ∧
      (run_subfinder r env st).stOf.files.alive_txt = st.files.alive_txt ∧
      (run_subfinder r env st).stOf.files.results_txt = st.files.results_txt := by
  unfold run_subfinder
  split
  · split <;> simp [PRes.stOf]
  · refine ⟨?_, ?_, ?_⟩ <;>
      simp [PRes.stOf, doUpdatePhase, doUpdateStats,
        get_phase_status_update_phase_status_ne _ _ _ _ _ _ _ h]

lemma httpx_batch_loop_frame (env : ScanEnv) (n idx bs tb : ℕ) (st : ScanSt)
    (all : List String) (invs : List ToolInv) (ph : String) (h : ph ≠ "alive_check") :
    get_phase_status (httpx_batch_loop env n idx bs tb st all invs).1.ckpt ph =
      get_phase_status st.ckpt ph ∧
    (httpx_batch_loop env n idx bs tb st all invs).1.files = st.files ∧
    (httpx_batch_loop env n idx bs tb st all invs).1.statsLog = st.statsLog ∧
    (httpx_batch_loop env n idx bs tb st all invs).1.ckpt.statistics = st.ckpt.statistics := by
  induction n generalizing idx st all invs with
  | zero => exact ⟨rfl, rfl, rfl, rfl⟩
  | succ n ih =>
    simp only [httpx_batch_loop]
    obtain ⟨h1, h2, h3, h4⟩ := ih (idx + 1) _ (all ++ env.httpxLines idx) (invs ++ [.httpx])
    refine ⟨?_, ?_, ?_, ?_⟩
    · rw [h1]
      simp [update_batch_checkpoint, doUpdatePhase,
        get_phase_status_update_phase_status_ne _ _ _ _ _ _ _ h]
    · rw [h2]
      simp [update_batch_checkpoint, doUpdatePhase]
    · rw [h3]
      simp [update_batch_checkpoint, doUpdatePhase]
    · rw [h4]
      simp [update_batch_checkpoint, doUpdatePhase]

lemma run_httpx_frame (r : Bool) (env : ScanEnv) (st : ScanSt) (subs : List String)
    (ph : String) (h : ph ≠ "alive_check") :
    get_phase_status (run_httpx r env st subs).stOf.ckpt ph =
      get_phase_status st.ckpt ph ∧
    (run_httpx r env st subs).stOf.files.results_txt = st.files.results_txt := by
  unfold run_httpx process_httpx_batches
  split
  · split <;> simp [PRes.stOf]
  · constructor
    · simp only [PRes.stOf, save_alive_results, doUpdateStats, doUpdatePhase]
      rw [get_phase_status_update_phase_status_ne _ _ _ _ _ _ _ h,
        get_phase_status_update_statistics,
        (httpx_batch_loop_frame env _ _ _ _ _ _ _ ph h).1]
      try simp [doUpdatePhase, get_phase_status_update_phase_status_ne _ _ _ _ _ _ _ h]
    · simp only [PRes.stOf, save_alive_results, doUpdateStats, doUpdatePhase]
      rw [(httpx_batch_loop_frame env _ _ _ _ _ _ _ ph h).2.1]
      try simp [doUpdatePhase]

lemma run_nuclei_stOf_preserves (r : Bool) (env : ScanEnv) (st : ScanSt)
    (al : List String) (ph : String) (h1 : ph ≠ "vulnerability_scan") :
    get_phase_status (run_nuclei r env st al).stOf.ckpt ph =
      get_phase_status st.ckpt ph := by
  have hbody : get_phase_status (nuclei_scan_body env st al).stOf.ckpt ph =
      get_phase_status st.ckpt ph := by
    unfold nuclei_scan_body
    split
    · simp [PRes.stOf, doUpdatePhase,
        get_phase_status_update_phase_status_ne _ _ _ _ _ _ _ h1]
    · simp [PRes.stOf, doUpdatePhase, doUpdateStats,
        get_phase_status_update_phase_status_ne _ _ _ _ _ _ _ h1]
  unfold run_nuclei
  split
  · split
    · simp [PRes.stOf]
    · exact hbody
  · exact hbody

/-! ## Scan-step lemmas -/

lemma scan_step1_invs (r : Bool) (env : ScanEnv) (st : ScanSt) :
    ∀ t ∈ (scan_step1 r env st).invs, t = .subfinder := by
  unfold scan_step1
  split
  · exact run_subfinder_invs r env st
  · split <;> intro t ht <;> simp [PRes.invs] at ht

lemma scan_step2_invs (r : Bool) (env : ScanEnv) (st : ScanSt) (subs : List String) :
    ∀ t ∈ (scan_step2 r env st subs).invs, t = .httpx := by
  unfold scan_step2
  split
  · exact run_httpx_invs r env st subs
  · split <;> intro t ht <;> simp [PRes.invs] at ht

lemma scan_step3_invs (r : Bool) (env : ScanEnv) (st : ScanSt) (al : List String) :
    ∀ t ∈ (scan_step3 r env st al).invs, t = .nuclei := by
  unfold scan_step3
  split
  · exact run_nuclei_invs r env st al
  · intro t ht
    simp [PRes.invs] at ht

lemma scan_step1_skip (env : ScanEnv) (st : ScanSt)
    (hc : get_phase_status st.ckpt "subdomain_enumeration" = some "completed") :
    (scan_step1 true env st).invs = [] := by
  unfold scan_step1
  rw [hc]
  simp only [beq_self_eq_true, Bool.not_true, Bool.or_self, Bool.false_eq_true,
    if_false]
  split <;> rfl

lemma scan_step2_skip (env : ScanEnv) (st : ScanSt) (subs : List String)
    (hc : get_phase_status st.ckpt "alive_check" = some "completed") :
    (scan_step2 true env st subs).invs = [] := by
  unfold scan_step2
  rw [hc]
  simp only [beq_self_eq_true, Bool.not_true, Bool.or_self, Bool.false_eq_true,
    if_false]
  split <;> rfl

lemma scan_step3_skip (env : ScanEnv) (st : ScanSt) (al : List String)
    (hc : get_phase_status st.ckpt "vulnerability_scan" = some "completed") :
    (scan_step3 true env st al).invs = [] := by
  unfold scan_step3
  rw [hc]
  simp only [beq_self_eq_true, Bool.not_true, Bool.or_self, Bool.false_eq_true,
    if_false]
  rfl

lemma scan_step1_frame (r : Bool) (env : ScanEnv) (st : ScanSt) (ph : String)
    (h : ph ≠ "subdomain_enumeration") :
    get_phase_status (scan_step1 r env st).stOf.ckpt ph = get_phase_status st.ckpt ph ∧
      (scan_step1 r env st).stOf.files.alive_txt = st.files.alive_txt ∧
      (scan_step1 r env st).stOf.files.results_txt = st.files.results_txt := by
  unfold scan_step1
  split
  · exact run_subfinder_frame r env st ph h
  · split <;> exact ⟨rfl, rfl, rfl⟩

lemma scan_step2_frame (r : Bool) (env : ScanEnv) (st : ScanSt) (subs : List String)
    (ph : String) (h : ph ≠ "alive_check") :
    get_phase_status (scan_step2 r env st subs).stOf.ckpt ph =
      get_phase_status st.ckpt ph := by
  unfold scan_step2
  split
  · exact (run_httpx_frame r env st subs ph h).1
  · split <;> rfl

/-- The tool the given phase invokes. -/
def phaseTool (p : String) : ToolInv :=
  if p = "subdomain_enumeration" then .subfinder
  else if p = "alive_check" then .httpx else .nuclei

/-- C6: during a resumed scan, a phase whose checkpoint status is already
`completed` never has its external tool invoked — its tool appears nowhere
in the subprocess trace of the whole resumed run, on every path (including
error paths). -/
theorem completed_phase_tool_never_invoked (env : ScanEnv) (st : ScanSt) (p : String)
    (hp : p = "subdomain_enumeration" ∨ p = "alive_check" ∨ p = "vulnerability_scan")
    (hc : get_phase_status st.ckpt p = some "completed") :
    phaseTool p ∉ (scan true env st).invs := by
  intro hmem
  unfold scan at hmem
  rcases hp with rfl | rfl | rfl
  · -- subdomain_enumeration: step 1 is skipped, steps 2–3 only invoke httpx/nuclei
    have h1 : (scan_step1 true env (scan_pre env st)).invs = [] :=
      scan_step1_skip env _ (by rw [get_phase_status_scan_pre]; exact hc)
    have htool : phaseTool "subdomain_enumeration" = .subfinder := by decide
    rw [htool] at hmem
    cases hr1 : scan_step1 true env (scan_pre env st) with
    | err msg st' invs1 =>
      rw [hr1] at hmem h1
      simp only [PRes.invs] at h1
      subst h1
      simp [scan_fail, PRes.invs] at hmem
    | ok subs st' invs1 =>
      rw [hr1] at hmem h1
      simp only [PRes.invs] at h1
      subst h1
      dsimp only at hmem
      cases hr2 : scan_step2 true env st' subs with
      | err msg st'' invs2 =>
        rw [hr2] at hmem
        simp only [scan_fail, PRes.invs, List.nil_append] at hmem
        exact absurd (scan_step2_invs true env st' subs _
          (by rw [hr2]; exact hmem)) (by decide)
      | ok al st'' invs2 =>
        rw [hr2] at hmem
        dsimp only at hmem
        cases hr3 : scan_step3 true env st'' al with
        | err msg st3 invs3 =>
          rw [hr3] at hmem
          simp only [scan_fail, PRes.invs, List.nil_append] at hmem
          rcases List.mem_append.mp hmem with h | h
          · exact absurd (scan_step2_invs true env st' subs _
              (by rw [hr2]; exact h)) (by decide)
          · exact absurd (scan_step3_invs true env st'' al _
              (by rw [hr3]; exact h)) (by decide)
        | ok u st3 invs3 =>
          rw [hr3] at hmem
          simp only [PRes.invs, List.nil_append] at hmem
          rcases List.mem_append.mp hmem with h | h
          · exact absurd (scan_step2_invs true env st' subs _
              (by rw [hr2]; exact h)) (by decide)
          · exact absurd (scan_step3_invs true env st'' al _
              (by rw [hr3]; exact h)) (by decide)
  · -- alive_check: step 2 is skipped
    have htool : phaseTool "alive_check" = .httpx := by decide
    rw [htool] at hmem
    cases hr1 : scan_step1 true env (scan_pre env st) with
    | err msg st' invs1 =>
      rw [hr1] at hmem
      simp only [scan_fail, PRes.invs] at hmem
      exact absurd (scan_step1_invs true env _ _ (by rw [hr1]; exact hmem)) (by decide)
    | ok subs st' invs1 =>
      rw [hr1] at hmem
      dsimp only at hmem
      have hst' : get_phase_status st'.ckpt "alive_check" = some "completed" := by
        have hfr := (scan_step1_frame true env (scan_pre env st) "alive_check"
          (by decide)).1
        rw [hr1] at hfr
        simp only [PRes.stOf] at hfr
        rw [hfr, get_phase_status_scan_pre]
        exact hc
      have h2 : (scan_step2 true env st' subs).invs = [] :=
        scan_step2_skip env st' subs hst'
      cases hr2 : scan_step2 true env st' subs with
      | err msg st'' invs2 =>
        rw [hr2] at hmem h2
        simp only [PRes.invs] at h2
        subst h2
        simp only [scan_fail, PRes.invs, List.append_nil] at hmem
        exact absurd (scan_step1_invs true env _ _ (by rw [hr1]; exact hmem)) (by decide)
      | ok al st'' invs2 =>
        rw [hr2] at hmem h2
        simp only [PRes.invs] at h2
        subst h2
        dsimp only at hmem
        cases hr3 : scan_step3 true env st'' al with
        | err msg st3 invs3 =>
          rw [hr3] at hmem
          simp only [scan_fail, PRes.invs, List.append_nil] at hmem
          rcases List.mem_append.mp hmem with h | h
          · exact absurd (scan_step1_invs true env _ _ (by rw [hr1]; exact h)) (by decide)
          · exact absurd (scan_step3_invs true env st'' al _
              (by rw [hr3]; exact h)) (by decide)
        | ok u st3 invs3 =>
          rw [hr3] at hmem
          simp only [PRes.invs, List.append_nil] at hmem
          rcases List.mem_append.mp hmem with h | h
          · exact absurd (scan_step1_invs true env _ _ (by rw [hr1]; exact h)) (by decide)
          · exact absurd (scan_step3_invs true env st'' al _
              (by rw [hr3]; exact h)) (by decide)
  · -- vulnerability_scan: step 3 is skipped
    have htool : phaseTool "vulnerability_scan" = .nuclei := by decide
    rw [htool] at hmem
    cases hr1 : scan_step1 true env (scan_pre env st) with
    | err msg st' invs1 =>
      rw [hr1] at hmem
      simp only [scan_fail, PRes.invs] at hmem
      exact absurd (scan_step1_invs true env _ _ (by rw [hr1]; exact hmem)) (by decide)
    | ok subs st' invs1 =>
      rw [hr1] at hmem
      dsimp only at hmem
      have hst' : get_phase_status st'.ckpt "vulnerability_scan" = some "completed" := by
        have hfr := (scan_step1_frame true env (scan_pre env st) "vulnerability_scan"
          (by decide)).1
        rw [hr1] at hfr
        simp only [PRes.stOf] at hfr
        rw [hfr, get_phase_status_scan_pre]
        exact hc
      cases hr2 : scan_step2 true env st' subs with
      | err msg st'' invs2 =>
        rw [hr2] at hmem
        simp only [scan_fail, PRes.invs] at hmem
        rcases List.mem_append.mp hmem with h | h
        · exact absurd (scan_step1_invs true env _ _ (by rw [hr1]; exact h)) (by decide)
        · exact absurd (scan_step2_invs true env st' subs _
            (by rw [hr2]; exact h)) (by decide)
      | ok al st'' invs2 =>
        rw [hr2] at hmem
        dsimp only at hmem
        have hst'' : get_phase_status st''.ckpt "vulnerability_scan" = some "completed" := by
          have hfr := scan_step2_frame true env st' subs "vulnerability_scan" (by decide)
          rw [hr2] at hfr
          simp only [PRes.stOf] at hfr
          rw [hfr]
          exact hst'
        have h3 : (scan_step3 true env st'' al).invs = [] :=
          scan_step3_skip env st'' al hst''
        cases hr3 : scan_step3 true env st'' al with
        | err msg st3 invs3 =>
          rw [hr3] at hmem h3
          simp only [PRes.invs] at h3
          subst h3
          simp only [scan_fail, PRes.invs, List.append_nil] at hmem
          rcases List.mem_append.mp hmem with h | h
          · exact absurd (scan_step1_invs true env _ _ (by rw [hr1]; exact h)) (by decide)
          · exact absurd (scan_step2_invs true env st' subs _
              (by rw [hr2]; exact h)) (by decide)
        | ok u st3 invs3 =>
          rw [hr3] at hmem h3
          simp only [PRes.invs] at h3
          subst h3
          simp only [PRes.invs, List.append_nil] at hmem
          rcases List.mem_append.mp hmem with h | h
          · exact absurd (scan_step1_invs true env _ _ (by rw [hr1]; exact h)) (by decide)
          · exact absurd (scan_step2_invs true env st' subs _
              (by rw [hr2]; exact h)) (by decide)

/-! ## C2: fail-fast on missing artifacts of completed phases -/

lemma scan_step1_err_of_missing (env : ScanEnv) (st : ScanSt)
    (hc : get_phase_status st.ckpt "subdomain_enumeration" = some "completed")
    (hf : st.files.subdomains_txt = none) :
    scan_step1 true env st = .err "FileNotFoundError: subdomains.txt" st [] := by
  unfold scan_step1
  rw [hc, hf]
  simp

lemma scan_step1_skip_load_ok (env : ScanEnv) (st : ScanSt) (ls : List String)
    (hc : get_phase_status st.ckpt "subdomain_enumeration" = some "completed")
    (hf : st.files.subdomains_txt = some ls) :
    scan_step1 true env st = .ok (cleanSet ls) st [] := by
  unfold scan_step1
  rw [hc, hf]
  simp

lemma scan_step2_err_of_missing (env : ScanEnv) (st : ScanSt) (subs : List String)
    (hc : get_phase_status st.ckpt "alive_check" = some "completed")
    (hf : st.files.alive_txt = none) :
    scan_step2 true env st subs = .err "FileNotFoundError: alive.txt" st [] := by
  unfold scan_step2
  rw [hc, hf]
  simp

lemma scan_isErr_of_step1_err (r : Bool) (env : ScanEnv) (st : ScanSt)
    (msg : String) (st' : ScanSt) (invs : List ToolInv)
    (h : scan_step1 r env (scan_pre env st) = .err msg st' invs) :
    (scan r env st).isErr = true := by
  unfold scan
  rw [h]
  rfl

lemma scan_isErr_of_step2_err (r : Bool) (env : ScanEnv) (st : ScanSt)
    (subs : List String) (st' : ScanSt) (invs1 : List ToolInv) (msg : String)
    (st'' : ScanSt) (invs2 : List ToolInv)
    (h1 : scan_step1 r env (scan_pre env st) = .ok subs st' invs1)
    (h2 : scan_step2 r env st' subs = .err msg st'' invs2) :
    (scan r env st).isErr = true := by
  unfold scan
  rw [h1]
  dsimp only
  rw [h2]
  rfl

lemma scan_step1_eq_run_of_not_completed (r : Bool) (env : ScanEnv) (st : ScanSt)
    (h : (get_phase_status st.ckpt "subdomain_enumeration" == some "completed") = false) :
    scan_step1 r env st = run_subfinder r env st := by
  unfold scan_step1
  rw [h]
  simp

lemma run_subfinder_not_isErr_of_not_completed (r : Bool) (env : ScanEnv) (st : ScanSt)
    (h : (get_phase_status st.ckpt "subdomain_enumeration" == some "completed") = false) :
    (run_subfinder r env st).isErr = false := by
  unfold run_subfinder
  rw [h]
  simp [PRes.isErr]

/-- C2 (amended): resuming with a `completed` phase whose artifact is
missing fails fast for `subdomain_enumeration` (missing `subdomains.txt`)
and for `alive_check` (missing `alive.txt`); the `vulnerability_scan` phase
has no such protection (see the counterexample theorem: the scan proceeds
without error when `results.txt` is missing). -/
theorem scan_fails_fast_on_missing_artifact (env : ScanEnv) (st : ScanSt) :
    (get_phase_status st.ckpt "subdomain_enumeration" = some "completed" →
      st.files.subdomains_txt = none → (scan true env st).isErr = true) ∧
    (get_phase_status st.ckpt "alive_check" = some "completed" →
      st.files.alive_txt = none → (scan true env st).isErr = true) := by
  constructor
  · intro hc hf
    exact scan_isErr_of_step1_err true env st _ _ _
      (scan_step1_err_of_missing env _ (by rw [get_phase_status_scan_pre]; exact hc) hf)
  · intro hc hf
    by_cases h1 : get_phase_status st.ckpt "subdomain_enumeration" = some "completed"
    · cases hfs : st.files.subdomains_txt with
      | none =>
        exact scan_isErr_of_step1_err true env st _ _ _
          (scan_step1_err_of_missing env _
            (by rw [get_phase_status_scan_pre]; exact h1) hfs)
      | some ls =>
        have hstep2 : scan_step2 true env (scan_pre env st) (cleanSet ls) =
            .err "FileNotFoundError: alive.txt" (scan_pre env st) [] :=
          scan_step2_err_of_missing env _ _
            (by rw [get_phase_status_scan_pre]; exact hc) hf
        exact scan_isErr_of_step2_err true env st (cleanSet ls) (scan_pre env st) [] _ _ _
          (scan_step1_skip_load_ok env _ ls
            (by rw [get_phase_status_scan_pre]; exact h1) hfs) hstep2
    · have hg : (get_phase_status (scan_pre env st).ckpt "subdomain_enumeration" ==
          some "completed") = false := by
        rw [get_phase_status_scan_pre]
        exact beq_eq_false_iff_ne.mpr h1
      cases hr : run_subfinder true env (scan_pre env st) with
      | err msg st' invs =>
        have := run_subfinder_not_isErr_of_not_completed true env (scan_pre env st) hg
        rw [hr] at this
        simp [PRes.isErr] at this
      | ok subs st' invs1 =>
        have hstep1 : scan_step1 true env (scan_pre env st) = .ok subs st' invs1 := by
          rw [scan_step1_eq_run_of_not_completed true env _ hg]
          exact hr
        have hfr := run_subfinder_frame true env (scan_pre env st) "alive_check" (by decide)
        rw [hr] at hfr
        simp only [PRes.stOf] at hfr
        have hstep2 : scan_step2 true env st' subs =
            .err "FileNotFoundError: alive.txt" st' [] := by
          refine scan_step2_err_of_missing env st' subs ?_ ?_
          · rw [hfr.1, get_phase_status_scan_pre]
            exact hc
          · rw [hfr.2.1]
            exact hf
        exact scan_isErr_of_step2_err true env st subs st' invs1 _ _ _ hstep1 hstep2

/-! ## Concrete fixtures for witnesses and counterexamples -/

/-- A concrete external world: no cache hit, one subdomain found, no alive
hosts, batch size 5 (the minimum `_adaptive_batch_size` can return). -/
def witnessEnv : ScanEnv :=
  { now := "t", cacheHit := false, subfinderLines := ["a.example.com"],
    httpxLines := fun _ => [], nucleiVulns := fun _ => 0, batchSizeFor := fun _ => 5 }

/-- A resumed scan state whose `alive_check` phase is already completed. -/
def completedAliveSt : ScanSt :=
  { ckpt := (update_phase_status (initialize_checkpoint "id0" "example.com" "t0" [])
      "t1" "alive_check" "completed" 100 1).1,
    files := { subdomains_txt := some ["a.example.com"],
               alive_txt := some ["a.example.com"], results_txt := none },
    scanState := { status := "resuming", subdomains := 0, alive_subdomains := 0,
                   vulnerabilities := 0 },
    statsLog := [] }

/-- Witness for C6 at a concrete input: resuming with `alive_check`
completed, httpx is never spawned. -/
theorem completed_phase_tool_never_invoked_witness :
    phaseTool "alive_check" ∉ (scan true witnessEnv completedAliveSt).invs :=
  completed_phase_tool_never_invoked witnessEnv completedAliveSt "alive_check"
    (Or.inr (Or.inl rfl)) (by decide)

/-- A checkpoint document in which all three phases are `completed`. -/
def allCompletedCkpt : CheckpointData :=
  (update_phase_status
    ((update_phase_status
      ((update_phase_status (initialize_checkpoint "id0" "example.com" "t0" [])
        "t1" "subdomain_enumeration" "completed" 100 2).1)
      "t1" "alive_check" "completed" 100 1).1)
    "t1" "vulnerability_scan" "completed" 100 0).1

/-- A resumed state: every phase completed, `subdomains.txt` and `alive.txt`
present on disk, but `results.txt` missing. -/
def missingResultsSt : ScanSt :=
  { ckpt := allCompletedCkpt,
    files := { subdomains_txt := some ["a.example.com", "b.example.com"],
               alive_txt := some ["a.example.com"], results_txt := none },
    scanState := { status := "resuming", subdomains := 0, alive_subdomains := 0,
                   vulnerabilities := 0 },
    statsLog := [] }

/-- C2 counterexample: resuming with `vulnerability_scan` marked `completed`
while its artifact `results.txt` does not exist, the scan finishes without
raising any error — it does not fail fast. -/
theorem scan_proceeds_despite_missing_results_artifact :
    get_phase_status missingResultsSt.ckpt "vulnerability_scan" = some "completed" ∧
    missingResultsSt.files.results_txt = none ∧
    (scan true witnessEnv missingResultsSt).isErr = false := by
  refine ⟨by decide, rfl, by decide⟩

/-- Resumed state: `subdomain_enumeration` completed but `subdomains.txt`
missing. -/
def missingSubdomainsSt : ScanSt :=
  { ckpt := (update_phase_status (initialize_checkpoint "id0" "example.com" "t0" [])
      "t1" "subdomain_enumeration" "completed" 100 2).1,
    files := { subdomains_txt := none, alive_txt := none, results_txt := none },
    scanState := { status := "resuming", subdomains := 0, alive_subdomains := 0,
                   vulnerabilities := 0 },
    statsLog := [] }

/-- Resumed state: `alive_check` completed but `alive.txt` missing. -/
def missingAliveSt : ScanSt :=
  { ckpt := (update_phase_status
      ((update_phase_status (initialize_checkpoint "id0" "example.com" "t0" [])
        "t1" "subdomain_enumeration" "completed" 100 2).1)
      "t1" "alive_check" "completed" 100 1).1,
    files := { subdomains_txt := some ["a.example.com", "b.example.com"],
               alive_txt := none, results_txt := none },
    scanState := { status := "resuming", subdomains := 0, alive_subdomains := 0,
                   vulnerabilities := 0 },
    statsLog := [] }

/-- Witness for the amended C2 at concrete inputs: both protected phases
really do fail fast. -/
theorem scan_fails_fast_on_missing_artifact_witness :
    (scan true witnessEnv missingSubdomainsSt).isErr = true ∧
    (scan true witnessEnv missingAliveSt).isErr = true :=
  ⟨(scan_fails_fast_on_missing_artifact witnessEnv missingSubdomainsSt).1 (by decide) rfl,
   (scan_fails_fast_on_missing_artifact witnessEnv missingAliveSt).2 (by decide) rfl⟩

/-- Witness for C5 at a concrete input: erase `scan_id`, `start_time`,
`status`, `phases` and `environment` from a freshly initialized document,
repair, verify. -/
theorem repair_then_verify_ok_witness :
    verify_checkpoint_integrity "example.com"
        (repair_checkpoint "example.com" "newid" "t1"
          (eraseFields (initialize_checkpoint "id0" "example.com" "t0" [("subfinder", "v2")])
            ⟨true, false, true, false, true, true, false, true⟩)) = (true, []) :=
  (repair_then_verify_ok "example.com" "newid" "t1"
    (initialize_checkpoint "id0" "example.com" "t0" [("subfinder", "v2")])
    ⟨true, false, true, false, true, true, false, true⟩ (by decide)).1

/-! ## C1: batch-level resume of the `alive_check` phase -/

/-- The environment of the C1 scenario: batch size 10 for the 20-item list
(`adaptiveBatchSize 4 0 20 = 10`, proved below), one alive host per batch. -/
def c1Env : ScanEnv :=
  { now := "t", cacheHit := false, subfinderLines := [],
    httpxLines := fun _ => ["x.example.com"], nucleiVulns := fun _ => 0,
    batchSizeFor := fun _ => 10 }

/-- The state left behind by a first run interrupted during the second
batch of `alive_check`: `_initialize_alive_check_phase` marked the phase
in-progress, then `_update_batch_checkpoint` ran for batch 0 (before batch 0
executed) and for batch 1 (before the interrupt), exactly as
`_process_single_httpx_batch` does. -/
def c1Interrupted : ScanSt :=
  update_batch_checkpoint "t3"
    (update_batch_checkpoint "t2"
      (doUpdatePhase "t1"
        { ckpt := initialize_checkpoint "id0" "example.com" "t0" [],
          files := { subdomains_txt := none, alive_txt := none, results_txt := none },
          scanState := { status := "initializing", subdomains := 0, alive_subdomains := 0,
                         vulnerabilities := 0 },
          statsLog := [] }
        "alive_check" "in_progress" 0 0)
      0 10 2)
    1 10 2

/-- C1 (code bug): after a first run interrupted during batch 1 of 2
(batch 0 completed), `_get_alive_check_resume_state` recovers `0` — not
`batch_index * batch_size = 10` — because `_update_batch_checkpoint` passes
`checkpoint={...}` as a keyword argument to `update_checkpoint`, which nests
the batch state under `phases.alive_check.checkpoint["checkpoint"]` while
the reader looks for `phases.alive_check.checkpoint["batch_index"]`.  The
resumed run therefore executes all `2` batches instead of the `1` remaining
batch.  (`adaptiveBatchSize 4 0 20 = 10` ties the scenario's batch size to
the real `_adaptive_batch_size`.) -/
theorem alive_check_resume_skips_no_batches :
    adaptiveBatchSize 4 0 20 = 10 ∧
    ((get_phase_data c1Interrupted.ckpt "alive_check").bind PhaseData.checkpoint).map
        (fun ck => ck.lookup "checkpoint") =
      some (some (JVal.jobj
        [("batch_index", 1), ("batch_size", 10), ("progress", 50)])) ∧
    get_alive_check_resume_state true c1Interrupted.ckpt = 0 ∧
    (run_httpx true c1Env c1Interrupted (List.replicate 20 "h.example.com")).invs.length = 2 ∧
    (2 : ℕ) ≠ 2 - 1 := by
  refine ⟨?_, by decide, by decide, by decide, by decide⟩
  unfold adaptiveBatchSize pyInt
  norm_num [max_def, min_def]

/-! ## `cleanup_old_checkpoints` (checkpoint_manager.py 848–880) -/

/-- A directory entry of the `checkpoints` directory: file name and
modification time (`stat().st_mtime`). -/
structure FileEntry where
  name : String
  mtime : ℕ
deriving DecidableEq, Repr

def listIsPrefix : List Char → List Char → Bool
  | [], _ => true
  | _ :: _, [] => false
  | a :: as, b :: bs => a == b && listIsPrefix as bs

/-- `Path.glob("scan_state_*.json")` membership for a file name in the
checkpoints directory: literal prefix `scan_state_`, then anything (`*`,
possibly empty), then literal suffix `.json`, without overlap
(`"scan_state_".length = 11`). -/
def matchesBackupGlob (name : String) : Bool :=
  listIsPrefix "scan_state_".data name.data &&
  listIsPrefix ".json".data.reverse (name.data.drop 11).reverse

/-- "not older than": the descending-mtime order of
`sort(key=...st_mtime, reverse=True)`. -/
def newerEq (a b : FileEntry) : Prop := b.mtime ≤ a.mtime

instance : DecidableRel newerEq := fun a b => Nat.decLe b.mtime a.mtime

instance : IsTotal FileEntry newerEq := ⟨fun a b => Nat.le_total b.mtime a.mtime⟩

instance : IsTrans FileEntry newerEq := ⟨fun _ _ _ hab hbc => le_trans hbc hab⟩

/-- `CheckpointManager.cleanup_old_checkpoints` (checkpoint_manager.py
848–880) on a directory listing: glob the backup files; if at most
`max_checkpoints` exist do nothing; otherwise sort newest-first and delete
everything past the first `max_checkpoints`.  Returns
`(remaining directory, deleted files)`. -/
def cleanup_old_checkpoints (dir : List FileEntry) (max_checkpoints : ℕ) :
    List FileEntry × List FileEntry :=
  let checkpoint_files := dir.filter (fun f => matchesBackupGlob f.name)
  if checkpoint_files.length ≤ max_checkpoints then (dir, [])
  else
    let sorted := List.insertionSort newerEq checkpoint_files
    let toDelete := sorted.drop max_checkpoints
    (dir.filter (fun f => decide (f ∉ toDelete)), toDelete)

/-- C9: `cleanup_old_checkpoints` deletes only files matching
`scan_state_*.json`; any non-matching file — in particular the
authoritative `scan_state.json` and the lock file `scan_state.lock` — is
retained; when the directory listing has no duplicate entries exactly
`min max_checkpoints (number of backups)` backups remain; and every deleted
backup is no newer than every retained backup. -/
theorem cleanup_old_checkpoints_spec (dir : List FileEntry) (max_checkpoints : ℕ) :
    (∀ f ∈ (cleanup_old_checkpoints dir max_checkpoints).2,
      matchesBackupGlob f.name = true) ∧
    (∀ f ∈ dir, matchesBackupGlob f.name = false →
      f ∈ (cleanup_old_checkpoints dir max_checkpoints).1) ∧
    (∀ f ∈ dir, f.name = "scan_state.json" ∨ f.name = "scan_state.lock" →
      f ∈ (cleanup_old_checkpoints dir max_checkpoints).1) ∧
    (dir.Nodup →
      ((cleanup_old_checkpoints dir max_checkpoints).1.filter
        (fun f => matchesBackupGlob f.name)).length =
      min max_checkpoints (dir.filter (fun f => matchesBackupGlob f.name)).length) ∧
    (∀ f ∈ (cleanup_old_checkpoints dir max_checkpoints).2,
      ∀ g ∈ (cleanup_old_checkpoints dir max_checkpoints).1,
        matchesBackupGlob g.name = true → f.mtime ≤ g.mtime) := by
  unfold cleanup_old_checkpoints
  by_cases hle : (dir.filter (fun f => matchesBackupGlob f.name)).length ≤ max_checkpoints
  · rw [if_pos hle]
    refine ⟨by simp, fun f hf _ => hf, fun f hf _ => hf, fun _ => ?_, by simp⟩
    exact (Nat.min_eq_right hle).symm
  · rw [if_neg hle]
    set M := dir.filter (fun f => matchesBackupGlob f.name) with hM
    set S := List.insertionSort newerEq M with hS
    have hperm : S.Perm M := List.perm_insertionSort newerEq M
    have hmemdel : ∀ f ∈ S.drop max_checkpoints, matchesBackupGlob f.name = true := by
      intro f hf
      have hfM : f ∈ M := hperm.mem_iff.mp (List.mem_of_mem_drop hf)
      rw [hM] at hfM
      exact (List.mem_filter.mp hfM).2
    refine ⟨hmemdel, ?_, ?_, ?_, ?_⟩
    · intro f hf hm
      refine List.mem_filter.mpr ⟨hf, ?_⟩
      simp only [decide_eq_true_eq]
      intro hdel
      rw [hmemdel f hdel] at hm
      exact absurd hm (by decide)
    · intro f hf hname
      refine List.mem_filter.mpr ⟨hf, ?_⟩
      simp only [decide_eq_true_eq]
      intro hdel
      have hmm := hmemdel f hdel
      rcases hname with h | h <;> rw [h] at hmm <;> exact absurd hmm (by decide)
    · intro hnd
      have hndM : M.Nodup := by rw [hM]; exact hnd.filter _
      have hndS : S.Nodup := (hperm.nodup_iff).mpr hndM
      have hsplit := List.take_append_drop max_checkpoints S
      have hdisj : ∀ f ∈ S.take max_checkpoints, f ∉ S.drop max_checkpoints := by
        rw [← hsplit] at hndS
        intro f hfT hfD
        exact (List.disjoint_of_nodup_append hndS) hfT hfD
      have key : ∀ q : FileEntry → Bool, (∀ f ∈ S.take max_checkpoints, q f = true) →
          (∀ f ∈ S.drop max_checkpoints, ¬q f = true) →
          S.filter q = S.take max_checkpoints := by
        intro q hqT hqD
        conv_lhs => rw [← hsplit]
        rw [List.filter_append, List.filter_eq_self.mpr hqT,
          List.filter_eq_nil_iff.mpr hqD, List.append_nil]
      have hfilterS : S.filter (fun f => decide (f ∉ S.drop max_checkpoints)) =
          S.take max_checkpoints := by
        refine key _ (fun f hf => ?_) (fun f hf => ?_)
        · simp only [decide_eq_true_eq]
          exact hdisj f hf
        · simp [hf]
      have hmlen : max_checkpoints ≤ M.length := le_of_lt (lt_of_not_ge hle)
      calc ((dir.filter (fun f => decide (f ∉ S.drop max_checkpoints))).filter
            (fun f => matchesBackupGlob f.name)).length
          = (M.filter (fun f => decide (f ∉ S.drop max_checkpoints))).length := by
            rw [List.filter_filter, hM, List.filter_filter]
            have hfun : (fun a : FileEntry => matchesBackupGlob a.name &&
                decide (a ∉ S.drop max_checkpoints)) =
                (fun a => decide (a ∉ S.drop max_checkpoints) &&
                  matchesBackupGlob a.name) :=
              funext fun a => Bool.and_comm _ _
            rw [hfun]
      _ = (S.filter (fun f => decide (f ∉ S.drop max_checkpoints))).length :=
            ((hperm.filter _).length_eq).symm
      _ = (S.take max_checkpoints).length := by rw [hfilterS]
      _ = max_checkpoints := by
            rw [List.length_take, hperm.length_eq, Nat.min_eq_left hmlen]
      _ = min max_checkpoints M.length := (Nat.min_eq_left hmlen).symm
    · intro f hfdel g hg hgm
      have hgq := List.mem_filter.mp hg
      have hgnot : g ∉ S.drop max_checkpoints := by
        have hq2 := hgq.2
        simpa using hq2
      have hgM : g ∈ M := by
        rw [hM]
        exact List.mem_filter.mpr ⟨hgq.1, hgm⟩
      have hgS : g ∈ S := hperm.mem_iff.mpr hgM
      have hsplit := List.take_append_drop max_checkpoints S
      have hgT : g ∈ S.take max_checkpoints := by
        rw [← hsplit] at hgS
        rcases List.mem_append.mp hgS with h | h
        · exact h
        · exact absurd h hgnot
      have hsorted : List.Pairwise newerEq S := List.sorted_insertionSort newerEq M
      rw [← hsplit] at hsorted
      exact (List.pairwise_append.mp hsorted).2.2 g hgT f hfdel

/-- A concrete checkpoints directory: the authoritative file, the lock
file, and four timestamped backups. -/
def c9Dir : List FileEntry :=
  [⟨"scan_state.json", 100⟩, ⟨"scan_state.lock", 90⟩,
   ⟨"scan_state_20240101_000000.json", 1⟩, ⟨"scan_state_20240102_000000.json", 2⟩,
   ⟨"scan_state_20240103_000000.json", 3⟩, ⟨"scan_state_20240104_000000.json", 4⟩]

/-- Witness for C9 at a concrete input: with `max_checkpoints = 2` the
oldest backup is deleted (and matches the glob), `scan_state.json`
survives, exactly 2 backups remain, and the deleted backup is older than a
retained one. -/
theorem cleanup_old_checkpoints_spec_witness :
    matchesBackupGlob (FileEntry.mk "scan_state_20240101_000000.json" 1).name = true ∧
    (FileEntry.mk "scan_state.json" 100) ∈ (cleanup_old_checkpoints c9Dir 2).1 ∧
    ((cleanup_old_checkpoints c9Dir 2).1.filter
      (fun f => matchesBackupGlob f.name)).length =
      min 2 (c9Dir.filter (fun f => matchesBackupGlob f.name)).length ∧
    (FileEntry.mk "scan_state_20240101_000000.json" 1).mtime ≤
      (FileEntry.mk "scan_state_20240104_000000.json" 4).mtime :=
  have h := cleanup_old_checkpoints_spec c9Dir 2
  ⟨h.1 _ (by decide), h.2.2.1 _ (by decide) (Or.inl rfl), h.2.2.2.1 (by decide),
   h.2.2.2.2 _ (by decide) _ (by decide) (by decide)⟩

/-! ## C7: monotonicity of the statistics

`statsLog` records the value of the `statistics` sub-document after every
`update_statistics` call of the run; `StatsOK` is the invariant that the
recorded sequence (from a given initial view) is non-decreasing and
non-negative and ends at the current document's view. -/

def statsLe (a b : ℤ × ℤ × ℤ) : Prop := a.1 ≤ b.1 ∧ a.2.1 ≤ b.2.1 ∧ a.2.2 ≤ b.2.2

def statsNonneg (a : ℤ × ℤ × ℤ) : Prop := 0 ≤ a.1 ∧ 0 ≤ a.2.1 ∧ 0 ≤ a.2.2

/-- The `statistics` sub-document has all three keys (as `initialize_checkpoint`
creates it and `update_statistics` preserves it). -/
def statsShape (d : CheckpointData) : Prop :=
  ∃ s a v : ℤ, d.statistics = some ⟨some s, some a, some v⟩

def StatsOK (init : ℤ × ℤ × ℤ) (st : ScanSt) : Prop :=
  List.Chain' statsLe (init :: st.statsLog) ∧
  (init :: st.statsLog).getLast? = some (statsView st.ckpt) ∧
  statsNonneg init ∧ (∀ x ∈ st.statsLog, statsNonneg x) ∧ statsShape st.ckpt

lemma statsView_of_eq {d : CheckpointData} {s a v : ℤ}
    (h : d.statistics = some ⟨some s, some a, some v⟩) : statsView d = (s, a, v) := by
  simp [statsView, h]

lemma StatsOK_congr {init : ℤ × ℤ × ℤ} {st st' : ScanSt} (h : StatsOK init st)
    (hlog : st'.statsLog = st.statsLog)
    (hstats : st'.ckpt.statistics = st.ckpt.statistics) : StatsOK init st' := by
  obtain ⟨h1, h2, h3, h4, h5⟩ := h
  have hview : statsView st'.ckpt = statsView st.ckpt := by
    unfold statsView
    rw [hstats]
  refine ⟨?_, ?_, h3, ?_, ?_⟩
  · rw [hlog]; exact h1
  · rw [hlog, hview]; exact h2
  · rw [hlog]; exact h4
  · obtain ⟨s, a, v, hs⟩ := h5
    exact ⟨s, a, v, by rw [hstats]; exact hs⟩

lemma StatsOK_view_nonneg {init : ℤ × ℤ × ℤ} {st : ScanSt} (h : StatsOK init st) :
    statsNonneg (statsView st.ckpt) := by
  have hmem : statsView st.ckpt ∈ init :: st.statsLog :=
    List.mem_of_mem_getLast? (by rw [h.2.1]; rfl)
  rcases List.mem_cons.mp hmem with h' | h'
  · rw [h']; exact h.2.2.1
  · exact h.2.2.2.1 _ h'

lemma doUpdatePhase_StatsOK {init : ℤ × ℤ × ℤ} {st : ScanSt} (h : StatsOK init st)
    (now ph s : String) (p c : ℤ) : StatsOK init (doUpdatePhase now st ph s p c) :=
  StatsOK_congr h rfl (statistics_update_phase_status _ _ _ _ _ _)

lemma update_batch_checkpoint_StatsOK {init : ℤ × ℤ × ℤ} {st : ScanSt}
    (h : StatsOK init st) (now : String) (bi bs tb : ℕ) :
    StatsOK init (update_batch_checkpoint now st bi bs tb) :=
  StatsOK_congr h rfl (statistics_update_checkpoint _ _ _ _)

lemma doUpdateStats_StatsOK {init : ℤ × ℤ × ℤ} {st : ScanSt} (h : StatsOK init st)
    (now : String) (kwargs : List (String × ℤ))
    (hle : statsLe (statsView st.ckpt)
      (statsView (update_statistics st.ckpt now kwargs).1))
    (hnn : statsNonneg (statsView (update_statistics st.ckpt now kwargs).1))
    (hshape : statsShape (update_statistics st.ckpt now kwargs).1) :
    StatsOK init (doUpdateStats now st kwargs) := by
  obtain ⟨h1, h2, h3, h4, h5⟩ := h
  unfold doUpdateStats
  refine ⟨?_, ?_, h3, ?_, hshape⟩
  · show List.Chain' statsLe (init :: (st.statsLog ++ [_]))
    rw [← List.cons_append]
    refine List.chain'_append.mpr ⟨h1, List.chain'_singleton _, ?_⟩
    intro x hx y hy
    rw [h2] at hx
    simp only [Option.mem_def, Option.some.injEq] at hx
    simp only [List.head?_cons, Option.mem_def, Option.some.injEq] at hy
    subst hx
    subst hy
    exact hle
  · show (init :: (st.statsLog ++ [_])).getLast? = _
    rw [← List.cons_append, List.getLast?_concat]
  · intro x hx
    rcases List.mem_append.mp hx with h' | h'
    · exact h4 _ h'
    · simp only [List.mem_singleton] at h'
      rw [h']
      exact hnn

lemma update_statistics_subdomains {d : CheckpointData} {s a v : ℤ}
    (now : String) (n : ℤ) (h : d.statistics = some ⟨some s, some a, some v⟩) :
    (update_statistics d now [("subdomains_found", n)]).1.statistics =
      some ⟨some n, some a, some v⟩ := by
  simp [update_statistics, h, statSet]

lemma update_statistics_alive {d : CheckpointData} {s a v : ℤ}
    (now : String) (n : ℤ) (h : d.statistics = some ⟨some s, some a, some v⟩) :
    (update_statistics d now [("alive_subdomains", n)]).1.statistics =
      some ⟨some s, some n, some v⟩ := by
  simp [update_statistics, h, statSet]

lemma update_statistics_vulns {d : CheckpointData} {s a v : ℤ}
    (now : String) (n : ℤ) (h : d.statistics = some ⟨some s, some a, some v⟩) :
    (update_statistics d now [("vulnerabilities_found", n)]).1.statistics =
      some ⟨some s, some a, some n⟩ := by
  simp [update_statistics, h, statSet]

lemma statsView_congr {d d' : CheckpointData} (h : d'.statistics = d.statistics) :
    statsView d' = statsView d := by
  unfold statsView
  rw [h]

lemma doUpdateStats_subdomains (now : String) (st : ScanSt) (init : ℤ × ℤ × ℤ)
    (n : ℕ) (hOK : StatsOK init st) (hz0 : (statsView st.ckpt).1 = 0) :
    StatsOK init (doUpdateStats now st [("subdomains_found", (n : ℤ))]) ∧
    (statsView (doUpdateStats now st [("subdomains_found", (n : ℤ))]).ckpt).2.1 =
      (statsView st.ckpt).2.1 ∧
    (statsView (doUpdateStats now st [("subdomains_found", (n : ℤ))]).ckpt).2.2 =
      (statsView st.ckpt).2.2 := by
  obtain ⟨s, a, v, hs⟩ := hOK.2.2.2.2
  have hview : statsView st.ckpt = (s, a, v) := statsView_of_eq hs
  have hnew := update_statistics_subdomains (d := st.ckpt) now (n : ℤ) hs
  have hviewnew : statsView (update_statistics st.ckpt now
      [("subdomains_found", (n : ℤ))]).1 = ((n : ℤ), a, v) := statsView_of_eq hnew
  have hvnn := StatsOK_view_nonneg hOK
  rw [hview] at hvnn
  have hs0 : s = 0 := by rw [hview] at hz0; exact hz0
  refine ⟨doUpdateStats_StatsOK hOK now _ ?_ ?_ ⟨_, _, _, hnew⟩, ?_, ?_⟩
  · rw [hview, hviewnew, hs0]
    exact ⟨Int.natCast_nonneg n, le_refl _, le_refl _⟩
  · rw [hviewnew]
    exact ⟨Int.natCast_nonneg n, hvnn.2.1, hvnn.2.2⟩
  · show (statsView (update_statistics st.ckpt now [("subdomains_found", (n : ℤ))]).1).2.1 = _
    rw [hviewnew, hview]
  · show (statsView (update_statistics st.ckpt now [("subdomains_found", (n : ℤ))]).1).2.2 = _
    rw [hviewnew, hview]

lemma doUpdateStats_alive (now : String) (st : ScanSt) (init : ℤ × ℤ × ℤ)
    (n : ℕ) (hOK : StatsOK init st) (hz0 : (statsView st.ckpt).2.1 = 0) :
    StatsOK init (doUpdateStats now st [("alive_subdomains", (n : ℤ))]) ∧
    (statsView (doUpdateStats now st [("alive_subdomains", (n : ℤ))]).ckpt).1 =
      (statsView st.ckpt).1 ∧
    (statsView (doUpdateStats now st [("alive_subdomains", (n : ℤ))]).ckpt).2.2 =
      (statsView st.ckpt).2.2 := by
  obtain ⟨s, a, v, hs⟩ := hOK.2.2.2.2
  have hview : statsView st.ckpt = (s, a, v) := statsView_of_eq hs
  have hnew := update_statistics_alive (d := st.ckpt) now (n : ℤ) hs
  have hviewnew : statsView (update_statistics st.ckpt now
      [("alive_subdomains", (n : ℤ))]).1 = (s, (n : ℤ), v) := statsView_of_eq hnew
  have hvnn := StatsOK_view_nonneg hOK
  rw [hview] at hvnn
  have ha0 : a = 0 := by rw [hview] at hz0; exact hz0
  refine ⟨doUpdateStats_StatsOK hOK now _ ?_ ?_ ⟨_, _, _, hnew⟩, ?_, ?_⟩
  · rw [hview, hviewnew, ha0]
    exact ⟨le_refl _, Int.natCast_nonneg n, le_refl _⟩
  · rw [hviewnew]
    exact ⟨hvnn.1, Int.natCast_nonneg n, hvnn.2.2⟩
  · show (statsView (update_statistics st.ckpt now [("alive_subdomains", (n : ℤ))]).1).1 = _
    rw [hviewnew, hview]
  · show (statsView (update_statistics st.ckpt now [("alive_subdomains", (n : ℤ))]).1).2.2 = _
    rw [hviewnew, hview]

lemma doUpdateStats_vulns (now : String) (st : ScanSt) (init : ℤ × ℤ × ℤ)
    (n : ℕ) (hOK : StatsOK init st) (hz0 : (statsView st.ckpt).2.2 = 0) :
    StatsOK init (doUpdateStats now st [("vulnerabilities_found", (n : ℤ))]) ∧
    (statsView (doUpdateStats now st [("vulnerabilities_found", (n : ℤ))]).ckpt).1 =
      (statsView st.ckpt).1 ∧
    (statsView (doUpdateStats now st [("vulnerabilities_found", (n : ℤ))]).ckpt).2.1 =
      (statsView st.ckpt).2.1 := by
  obtain ⟨s, a, v, hs⟩ := hOK.2.2.2.2
  have hview : statsView st.ckpt = (s, a, v) := statsView_of_eq hs
  have hnew := update_statistics_vulns (d := st.ckpt) now (n : ℤ) hs
  have hviewnew : statsView (update_statistics st.ckpt now
      [("vulnerabilities_found", (n : ℤ))]).1 = (s, a, (n : ℤ)) := statsView_of_eq hnew
  have hvnn := StatsOK_view_nonneg hOK
  rw [hview] at hvnn
  have hv0 : v = 0 := by rw [hview] at hz0; exact hz0
  refine ⟨doUpdateStats_StatsOK hOK now _ ?_ ?_ ⟨_, _, _, hnew⟩, ?_, ?_⟩
  · rw [hview, hviewnew, hv0]
    exact ⟨le_refl _, le_refl _, Int.natCast_nonneg n⟩
  · rw [hviewnew]
    exact ⟨hvnn.1, hvnn.2.1, Int.natCast_nonneg n⟩
  · show (statsView (update_statistics st.ckpt now [("vulnerabilities_found", (n : ℤ))]).1).1 = _
    rw [hviewnew, hview]
  · show (statsView (update_statistics st.ckpt now [("vulnerabilities_found", (n : ℤ))]).1).2.1 = _
    rw [hviewnew, hview]

lemma statsView_doUpdatePhase (now : String) (st : ScanSt) (ph s : String) (p c : ℤ) :
    statsView (doUpdatePhase now st ph s p c).ckpt = statsView st.ckpt :=
  statsView_congr (statistics_update_phase_status _ _ _ _ _ _)

/-- The tail of `_run_subfinder`'s main path: the `subdomains_found` write
followed by the `completed` phase update. -/
lemma subfinder_tail_stats (now : String) (pre : ScanSt) (init base : ℤ × ℤ × ℤ)
    (n : ℕ) (hOK : StatsOK init pre) (hbase : statsView pre.ckpt = base)
    (hz0 : base.1 = 0) :
    StatsOK init (doUpdatePhase now
      (doUpdateStats now pre [("subdomains_found", (n : ℤ))])
      "subdomain_enumeration" "completed" 100 (n : ℤ)) ∧
    (statsView (doUpdatePhase now
      (doUpdateStats now pre [("subdomains_found", (n : ℤ))])
      "subdomain_enumeration" "completed" 100 (n : ℤ)).ckpt).2.1 = base.2.1 ∧
    (statsView (doUpdatePhase now
      (doUpdateStats now pre [("subdomains_found", (n : ℤ))])
      "subdomain_enumeration" "completed" 100 (n : ℤ)).ckpt).2.2 = base.2.2 := by
  have hz0' : (statsView pre.ckpt).1 = 0 := by rw [hbase]; exact hz0
  obtain ⟨hA, hB, hC⟩ := doUpdateStats_subdomains now pre init n hOK hz0'
  refine ⟨doUpdatePhase_StatsOK hA _ _ _ _ _, ?_, ?_⟩
  · rw [statsView_doUpdatePhase, hB, hbase]
  · rw [statsView_doUpdatePhase, hC, hbase]

lemma run_subfinder_stats (r : Bool) (env : ScanEnv) (st : ScanSt) (init : ℤ × ℤ × ℤ)
    (hOK : StatsOK init st)
    (hz : ¬(r = true ∧ get_phase_status st.ckpt "subdomain_enumeration" = some "completed") →
      (statsView st.ckpt).1 = 0) :
    StatsOK init (run_subfinder r env st).stOf ∧
    (statsView (run_subfinder r env st).stOf.ckpt).2.1 = (statsView st.ckpt).2.1 ∧
    (statsView (run_subfinder r env st).stOf.ckpt).2.2 = (statsView st.ckpt).2.2 := by
  unfold run_subfinder
  split
  · split
    · exact ⟨hOK, rfl, rfl⟩
    · exact ⟨hOK, rfl, rfl⟩
  · next hguard =>
    have hg : ¬(r = true ∧
        get_phase_status st.ckpt "subdomain_enumeration" = some "completed") := by
      rintro ⟨hr, hcs⟩
      apply hguard
      subst hr
      rw [hcs]
      simp
    have hz0 : (statsView st.ckpt).1 = 0 := hz hg
    dsimp only [PRes.stOf]
    exact subfinder_tail_stats env.now _ init (statsView st.ckpt)
      (cleanSet env.subfinderLines).length
      (doUpdatePhase_StatsOK hOK env.now "subdomain_enumeration" "in_progress" 0 0)
      (statsView_doUpdatePhase env.now st "subdomain_enumeration" "in_progress" 0 0)
      hz0

/-- `_save_alive_results`: the `alive_subdomains` write followed by the
`completed` phase update. -/
lemma save_alive_results_stats (now : String) (pre : ScanSt) (init base : ℤ × ℤ × ℤ)
    (als : List String) (n : ℕ) (hOK : StatsOK init pre)
    (hbase : statsView pre.ckpt = base) (hz0 : base.2.1 = 0) :
    StatsOK init (save_alive_results now pre als n) ∧
    (statsView (save_alive_results now pre als n).ckpt).1 = base.1 ∧
    (statsView (save_alive_results now pre als n).ckpt).2.2 = base.2.2 := by
  unfold save_alive_results
  have hOK' : StatsOK init
      ({ pre with files := { pre.files with alive_txt := some als } } : ScanSt) := hOK
  have hz0' : (statsView
      ({ pre with files := { pre.files with alive_txt := some als } } : ScanSt).ckpt).2.1 = 0 := by
    rw [show (statsView pre.ckpt).2.1 = 0 from by rw [hbase]; exact hz0]
  obtain ⟨hA, hB, hC⟩ := doUpdateStats_alive now
    { pre with files := { pre.files with alive_txt := some als } } init n hOK' hz0'
  refine ⟨doUpdatePhase_StatsOK hA _ _ _ _ _, ?_, ?_⟩
  · rw [statsView_doUpdatePhase, hB]
    exact congrArg (fun x => x.1) hbase
  · rw [statsView_doUpdatePhase, hC]
    exact congrArg (fun x => x.2.2) hbase

lemma run_httpx_stats (r : Bool) (env : ScanEnv) (st : ScanSt) (subs : List String)
    (init : ℤ × ℤ × ℤ) (hOK : StatsOK init st)
    (hz : ¬(r = true ∧ get_phase_status st.ckpt "alive_check" = some "completed") →
      (statsView st.ckpt).2.1 = 0) :
    StatsOK init (run_httpx r env st subs).stOf ∧
    (statsView (run_httpx r env st subs).stOf.ckpt).1 = (statsView st.ckpt).1 ∧
    (statsView (run_httpx r env st subs).stOf.ckpt).2.2 = (statsView st.ckpt).2.2 := by
  unfold run_httpx process_httpx_batches
  split
  · split
    · exact ⟨hOK, rfl, rfl⟩
    · exact ⟨hOK, rfl, rfl⟩
  · next hguard =>
    have hz0 : (statsView st.ckpt).2.1 = 0 := by
      apply hz
      rintro ⟨hr, hcs⟩
      apply hguard
      subst hr
      rw [hcs]
      simp
    dsimp only [PRes.stOf]
    exact save_alive_results_stats env.now _ init (statsView st.ckpt) _ _
      (StatsOK_congr
        (doUpdatePhase_StatsOK hOK env.now "alive_check" "in_progress" 0 0)
        (httpx_batch_loop_frame env _ _ _ _ _ _ _ "vulnerability_scan" (by decide)).2.2.1
        (httpx_batch_loop_frame env _ _ _ _ _ _ _ "vulnerability_scan" (by decide)).2.2.2)
      (statsView_congr
        (((httpx_batch_loop_frame env _ _ _ _ _ _ _ "vulnerability_scan"
          (by decide)).2.2.2).trans
          (statistics_update_phase_status st.ckpt env.now "alive_check" "in_progress" 0 0)))
      hz0

/-- The tail of `_run_nuclei`'s non-empty main path: the
`vulnerabilities_found` write followed by the `completed` phase update. -/
lemma nuclei_tail_stats (now : String) (pre : ScanSt) (init base : ℤ × ℤ × ℤ)
    (n : ℕ) (hOK : StatsOK init pre) (hbase : statsView pre.ckpt = base)
    (hz0 : base.2.2 = 0) :
    StatsOK init (doUpdatePhase now
      (doUpdateStats now pre [("vulnerabilities_found", (n : ℤ))])
      "vulnerability_scan" "completed" 100 (n : ℤ)) := by
  have hz0' : (statsView pre.ckpt).2.2 = 0 := by rw [hbase]; exact hz0
  obtain ⟨hA, -, -⟩ := doUpdateStats_vulns now pre init n hOK hz0'
  exact doUpdatePhase_StatsOK hA _ _ _ _ _

lemma nuclei_scan_body_stats (env : ScanEnv) (st : ScanSt) (al : List String)
    (init : ℤ × ℤ × ℤ) (hOK : StatsOK init st)
    (hz0 : (statsView st.ckpt).2.2 = 0) :
    StatsOK init (nuclei_scan_body env st al).stOf := by
  unfold nuclei_scan_body
  split
  · dsimp only [PRes.stOf]
    exact doUpdatePhase_StatsOK
      (doUpdatePhase_StatsOK hOK env.now "vulnerability_scan" "in_progress" 0 0) _ _ _ _ _
  · dsimp only [PRes.stOf]
    exact nuclei_tail_stats env.now _ init (statsView st.ckpt) _
      (doUpdatePhase_StatsOK hOK env.now "vulnerability_scan" "in_progress" 0 0)
      (statsView_doUpdatePhase env.now st "vulnerability_scan" "in_progress" 0 0)
      hz0

lemma run_nuclei_stats (r : Bool) (env : ScanEnv) (st : ScanSt) (al : List String)
    (init : ℤ × ℤ × ℤ) (hOK : StatsOK init st)
    (hg : (r && (get_phase_status st.ckpt "vulnerability_scan" == some "completed")) = false)
    (hz0 : (statsView st.ckpt).2.2 = 0) :
    StatsOK init (run_nuclei r env st al).stOf := by
  unfold run_nuclei
  rw [hg]
  simp only [Bool.false_eq_true, if_false]
  exact nuclei_scan_body_stats env st al init hOK hz0

lemma scan_step1_stats (r : Bool) (env : ScanEnv) (st : ScanSt) (init : ℤ × ℤ × ℤ)
    (hOK : StatsOK init st)
    (hz : ¬(r = true ∧ get_phase_status st.ckpt "subdomain_enumeration" = some "completed") →
      (statsView st.ckpt).1 = 0) :
    StatsOK init (scan_step1 r env st).stOf ∧
    (statsView (scan_step1 r env st).stOf.ckpt).2.1 = (statsView st.ckpt).2.1 ∧
    (statsView (scan_step1 r env st).stOf.ckpt).2.2 = (statsView st.ckpt).2.2 := by
  unfold scan_step1
  split
  · exact run_subfinder_stats r env st init hOK hz
  · split
    · exact ⟨hOK, rfl, rfl⟩
    · exact ⟨hOK, rfl, rfl⟩

lemma scan_step2_stats (r : Bool) (env : ScanEnv) (st : ScanSt) (subs : List String)
    (init : ℤ × ℤ × ℤ) (hOK : StatsOK init st)
    (hz : ¬(r = true ∧ get_phase_status st.ckpt "alive_check" = some "completed") →
      (statsView st.ckpt).2.1 = 0) :
    StatsOK init (scan_step2 r env st subs).stOf ∧
    (statsView (scan_step2 r env st subs).stOf.ckpt).1 = (statsView st.ckpt).1 ∧
    (statsView (scan_step2 r env st subs).stOf.ckpt).2.2 = (statsView st.ckpt).2.2 := by
  unfold scan_step2
  split
  · exact run_httpx_stats r env st subs init hOK hz
  · split
    · exact ⟨hOK, rfl, rfl⟩
    · exact ⟨hOK, rfl, rfl⟩

lemma scan_step3_stats (r : Bool) (env : ScanEnv) (st : ScanSt) (al : List String)
    (init : ℤ × ℤ × ℤ) (hOK : StatsOK init st)
    (hz : ¬(r = true ∧ get_phase_status st.ckpt "vulnerability_scan" = some "completed") →
      (statsView st.ckpt).2.2 = 0) :
    StatsOK init (scan_step3 r env st al).stOf := by
  unfold scan_step3
  split
  · next hguard =>
    have hg : (r && (get_phase_status st.ckpt "vulnerability_scan" ==
        some "completed")) = false := by
      rcases r with - | -
      · rfl
      · rcases hx : (get_phase_status st.ckpt "vulnerability_scan" ==
          some "completed") with - | -
        · rfl
        · rw [hx] at hguard
          simp at hguard
    have hz0 : (statsView st.ckpt).2.2 = 0 := by
      apply hz
      rintro ⟨hr, hcs⟩
      subst hr
      rw [hcs] at hg
      simp at hg
    exact run_nuclei_stats r env st al init hOK hg hz0
  · exact hOK

/-- C7: the three statistics recorded in the checkpoint are non-negative
and monotonically non-decreasing across every `update_statistics` mutation a
`scan` run performs.  The hypotheses say the run starts with a well-shaped,
non-negative statistics document in which any statistic whose phase is not
already `completed` on a resumed run (or any statistic at all on a fresh
run) is still `0` — which holds both for `initialize_checkpoint` output and
for any checkpoint this pipeline writes, since a statistic is only ever
written together with its phase's `completed` marker. -/
theorem scan_statistics_monotone (resuming : Bool) (env : ScanEnv) (st : ScanSt)
    (hlog : st.statsLog = []) (hshape : statsShape st.ckpt)
    (hnn : statsNonneg (statsView st.ckpt))
    (hz1 : ¬(resuming = true ∧
      get_phase_status st.ckpt "subdomain_enumeration" = some "completed") →
      (statsView st.ckpt).1 = 0)
    (hz2 : ¬(resuming = true ∧
      get_phase_status st.ckpt "alive_check" = some "completed") →
      (statsView st.ckpt).2.1 = 0)
    (hz3 : ¬(resuming = true ∧
      get_phase_status st.ckpt "vulnerability_scan" = some "completed") →
      (statsView st.ckpt).2.2 = 0) :
    List.Chain' statsLe (statsView st.ckpt :: (scan resuming env st).stOf.statsLog) ∧
    ∀ x ∈ statsView st.ckpt :: (scan resuming env st).stOf.statsLog, statsNonneg x := by
  have hOK0 : StatsOK (statsView st.ckpt) st := by
    refine ⟨?_, ?_, hnn, ?_, hshape⟩
    · rw [hlog]
      exact List.chain'_singleton _
    · rw [hlog]
      rfl
    · rw [hlog]
      intro x hx
      simp at hx
  have hpre_stats : (scan_pre env st).ckpt.statistics = st.ckpt.statistics := by
    simp [scan_pre]
  have hOK1 : StatsOK (statsView st.ckpt) (scan_pre env st) :=
    StatsOK_congr hOK0 rfl hpre_stats
  have hv1 : statsView (scan_pre env st).ckpt = statsView st.ckpt :=
    statsView_congr hpre_stats
  have hz1' : ¬(resuming = true ∧
      get_phase_status (scan_pre env st).ckpt "subdomain_enumeration" = some "completed") →
      (statsView (scan_pre env st).ckpt).1 = 0 := by
    intro hn
    rw [hv1]
    apply hz1
    rw [← get_phase_status_scan_pre env st "subdomain_enumeration"]
    exact hn
  have hfinish : ∀ st3 : ScanSt, StatsOK (statsView st.ckpt) st3 →
      ∀ out : ScanSt, out.statsLog = st3.statsLog →
        out.ckpt.statistics = st3.ckpt.statistics →
        List.Chain' statsLe (statsView st.ckpt :: out.statsLog) ∧
          ∀ x ∈ statsView st.ckpt :: out.statsLog, statsNonneg x := by
    intro st3 h3 out hl hs
    have hout : StatsOK (statsView st.ckpt) out := StatsOK_congr h3 hl hs
    refine ⟨hout.1, ?_⟩
    intro x hx
    rcases List.mem_cons.mp hx with h' | h'
    · rw [h']
      exact hnn
    · exact hout.2.2.2.1 x h'
  unfold scan
  obtain ⟨hs1OK, hs1a, hs1v⟩ :=
    scan_step1_stats resuming env (scan_pre env st) (statsView st.ckpt) hOK1 hz1'
  have hfr1 := fun ph h => scan_step1_frame resuming env (scan_pre env st) ph h
  cases hr1 : scan_step1 resuming env (scan_pre env st) with
  | err msg st' invs =>
    rw [hr1] at hs1OK
    exact hfinish st' hs1OK _ rfl (by simp [scan_fail, PRes.stOf])
  | ok subs st' invs1 =>
    rw [hr1] at hs1OK hs1a hs1v
    simp only [PRes.stOf] at hs1OK hs1a hs1v
    have hst1 := (hfr1 "alive_check" (by decide)).1
    have hst1v := (hfr1 "vulnerability_scan" (by decide)).1
    rw [hr1] at hst1 hst1v
    simp only [PRes.stOf] at hst1 hst1v
    have hz2' : ¬(resuming = true ∧
        get_phase_status st'.ckpt "alive_check" = some "completed") →
        (statsView st'.ckpt).2.1 = 0 := by
      intro hn
      rw [hs1a, hv1]
      apply hz2
      rw [← get_phase_status_scan_pre env st "alive_check", ← hst1]
      exact hn
    obtain ⟨hs2OK, hs2s, hs2v⟩ :=
      scan_step2_stats resuming env st' subs (statsView st.ckpt) hs1OK hz2'
    have hfr2 := scan_step2_frame resuming env st' subs "vulnerability_scan" (by decide)
    dsimp only
    cases hr2 : scan_step2 resuming env st' subs with
    | err msg st'' invs2 =>
      rw [hr2] at hs2OK
      exact hfinish st'' hs2OK _ rfl (by simp [scan_fail, PRes.stOf])
    | ok al st'' invs2 =>
      rw [hr2] at hs2OK hs2s hs2v hfr2
      simp only [PRes.stOf] at hs2OK hs2s hs2v hfr2
      have hz3' : ¬(resuming = true ∧
          get_phase_status st''.ckpt "vulnerability_scan" = some "completed") →
          (statsView st''.ckpt).2.2 = 0 := by
        intro hn
        rw [hs2v, hs1v, hv1]
        apply hz3
        rw [← get_phase_status_scan_pre env st "vulnerability_scan", ← hst1v, ← hfr2]
        exact hn
      have hs3OK :=
        scan_step3_stats resuming env st'' al (statsView st.ckpt) hs2OK hz3'
      dsimp only
      cases hr3 : scan_step3 resuming env st'' al with
      | err msg st3 invs3 =>
        rw [hr3] at hs3OK
        exact hfinish st3 hs3OK _ rfl (by simp [scan_fail, PRes.stOf])
      | ok u st3 invs3 =>
        rw [hr3] at hs3OK
        exact hfinish st3 hs3OK _ rfl (by simp [PRes.stOf])

/-- A fresh (non-resumed) scan state straight out of `initialize_checkpoint`. -/
def c7St : ScanSt :=
  { ckpt := initialize_checkpoint "id7" "example.com" "t0" [],
    files := { subdomains_txt := none, alive_txt := none, results_txt := none },
    scanState := { status := "in_progress", subdomains := 0, alive_subdomains := 0,
                   vulnerabilities := 0 },
    statsLog := [] }

/-- Witness for C7 at a concrete input: a fresh scan starting from
`initialize_checkpoint` output satisfies every hypothesis, and its recorded
statistics form a non-negative, non-decreasing chain. -/
theorem scan_statistics_monotone_witness :
    (c7St.statsLog = [] ∧ statsShape c7St.ckpt ∧ statsNonneg (statsView c7St.ckpt)) ∧
    List.Chain' statsLe
      (statsView c7St.ckpt :: (scan false witnessEnv c7St).stOf.statsLog) ∧
    ∀ x ∈ statsView c7St.ckpt :: (scan false witnessEnv c7St).stOf.statsLog,
      statsNonneg x :=
  ⟨⟨rfl, ⟨0, 0, 0, rfl⟩, by unfold statsNonneg; decide⟩,
   scan_statistics_monotone false witnessEnv c7St rfl ⟨0, 0, 0, rfl⟩
     (by unfold statsNonneg; decide)
     (fun _ => by decide) (fun _ => by decide) (fun _ => by decide)⟩

end AutoSubNuclei
